import Mathlib

/-!
# Portal: sender-side rendezvous handshake and receiver UI model

A shallow embedding of

* `pkg/sender/rendezvous_client.go` (`Sender.ConnectToRendezvous`,
  `writeEncryptedMessage`, `readEncryptedMessage`), and
* `ui/receiver/receiver.go` (`uiState`, `receiverUIModel.Update`,
  `receiverUIModel.View`).

The handshake is sequential code that talks to collaborators (websocket
transport, PAKE, crypt, JSON, channels).  It is embedded as a state-passing
computation over a `World` that holds what the collaborators will answer and
the list of observable events produced so far.  A Go `return err` is the
`Except.error` outcome of the computation; the world (and so the event list) is
kept on both outcomes.

What is assumed about the collaborators:

* the functions of the imported packages (`tools`, `pake`, `crypt`, `json`) are
  the fields of `Env`, arbitrary functions that may fail;
* what the connection delivers and what its writes return is scripted in
  `Inputs`, arbitrary as well;
* a channel operation (`passwordCh <- password`, `<-payloadReady`,
  `startServerCh <- opts`, `close(relayCh)`, `relayCh <- wsConn`) is an event: the
  other end of the channel is taken to be ready, blocking is not modelled;
* the local address of the dialled connection is a TCP address, whose IP is
  `Conn.localIP`.
-/

namespace Portal

/-! ## Data model -/

abbrev Bytes := List Nat

/-- Go `models.Password` (a string). -/
abbrev Password := String

/-- Go `net.IP` (a byte slice). -/
abbrev IP := List Nat

/-- The message types of `protocol.RendezvousMessageType` used by the sender. -/
inductive RendezvousMessageType where
  | RendezvousToSenderBind
  | SenderToRendezvousEstablish
  | RendezvousToSenderReady
  | SenderToRendezvousPAKE
  | RendezvousToSenderPAKE
  | SenderToRendezvousSalt
  | unknown (code : Nat)
  deriving DecidableEq, Repr

/-- The message types of `protocol.TransferMessageType` named by the sender; the
type is an integer in Go, so every other value is kept as `unknown code`. -/
inductive TransferMessageType where
  | ReceiverHandshake
  | SenderHandshake
  | ReceiverDirectCommunication
  | SenderDirectAck
  | ReceiverRelayCommunication
  | SenderRelayAck
  | unknown (code : Nat)
  deriving DecidableEq, Repr

/-- The `Payload interface{}` field of both envelopes. -/
inductive Payload where
  | empty
  | raw (data : Bytes)
  | PasswordPayload (Password : String)
  | PakePayload (Bytes : Bytes)
  | SaltPayload (Salt : Bytes)
  | SenderHandshakePayload (ip : IP) (Port : Int) (PayloadSize : Int)
  deriving DecidableEq, Repr

structure RendezvousMessage where
  type : RendezvousMessageType
  Payload : Payload
  deriving DecidableEq, Repr

structure TransferMessage where
  type : TransferMessageType
  Payload : Payload
  deriving DecidableEq, Repr

/-- Go `error` values.  `wrongMessageType` is what
`protocol.NewWrongMessageTypeError(expected, actual)` builds; `wrongRendezvousType`
is the type mismatch reported by `tools.ReadRendevouzMessage`; every other error
comes from a collaborator and is kept by a code. -/
inductive Error where
  | external (code : Nat)
  | wrongRendezvousType (expected actual : RendezvousMessageType)
  | wrongMessageType (expected : List TransferMessageType) (actual : TransferMessageType)
  deriving DecidableEq, Repr

/-- The connection closed: what a read returns when nothing more will arrive. -/
def Error.closed : Error := Error.external 0

/-- Go `*websocket.Conn`, with the IP of its local TCP address. -/
structure Conn where
  id : Nat
  localIP : IP
  deriving DecidableEq, Repr

/-- Go `*pake.Pake` (state of the key exchange). -/
structure Pake where
  state : Bytes
  deriving DecidableEq, Repr

/-- Go `*crypt.Crypt`: the session's Crypt Context. -/
structure Crypt where
  key : Bytes
  Salt : Bytes
  deriving DecidableEq, Repr

/-- Go `ServerOptions{port, receiverIP}`. -/
structure ServerOptions where
  port : Int
  receiverIP : IP
  deriving DecidableEq, Repr

/-- Go `Sender`, with the fields `ConnectToRendezvous` touches. -/
structure Sender where
  payloadSize : Int
  crypt : Option Crypt
  deriving DecidableEq, Repr

/-! ## Events and the world -/

/-- What a run does that can be seen from outside, in the order it happens.
An event of a fallible call carries the error the call returned (`none` for
`nil`). -/
inductive Event where
  | dial (conn : Option Conn) (err : Option Error)
  | readRendezvous (expected : RendezvousMessageType) (err : Option Error)
  | decodePayload (err : Option Error)
  | writeJSON (msg : RendezvousMessage) (err : Option Error)
  | sendPassword (password : Password)
  | pakeInitCurve (err : Option Error)
  | pakeUpdate (err : Option Error)
  | pakeSessionKey (err : Option Error)
  | cryptNew (err : Option Error)
  | readEncrypted (msg : Option TransferMessage) (err : Option Error)
  | getOpenPort (err : Option Error)
  | payloadReady
  | startServer (opts : ServerOptions)
  | writeMessage (msg : TransferMessage) (data : Bytes) (err : Option Error)
  | closeRelay
  | sendRelay (conn : Conn)
  deriving DecidableEq, Repr

/-- The collaborators of the sender that compute: each field is the function of
that name in the packages the sender imports. -/
structure Env where
  /-- Go `websocket.DefaultDialer.Dial` on the rendezvous address. -/
  Dial : Except Error Conn
  /-- Go `tools.DecodePayload` into a `RendezvousToSenderBindPayload`: its `ID`. -/
  DecodeBindPayload : Payload → Except Error Int
  /-- Go `tools.DecodePayload` into a `PakePayload`: its `Bytes`. -/
  DecodePakePayload : Payload → Except Error Bytes
  /-- Go `tools.DecodePayload` into a `ReceiverHandshakePayload`: its `IP`. -/
  DecodeHandshakePayload : Payload → Except Error IP
  GeneratePassword : Int → Password
  HashPassword : Password → String
  /-- Go `pake.InitCurve(password, 0, "p256")`. -/
  InitCurve : Password → Except Error Pake
  /-- Go `(*Pake).Bytes`. -/
  PakeBytes : Pake → Bytes
  /-- Go `(*Pake).Update`: the updated state, or the error. -/
  PakeUpdate : Pake → Bytes → Except Error Pake
  /-- Go `(*Pake).SessionKey`. -/
  SessionKey : Pake → Except Error Bytes
  /-- Go `crypt.New`. -/
  CryptNew : Bytes → Except Error Crypt
  /-- Go `(*Crypt).Encrypt`; the first argument counts the earlier calls, so that
  two encryptions of one plaintext may differ. -/
  Encrypt : Nat → Crypt → Bytes → Except Error Bytes
  /-- Go `(*Crypt).Decrypt`. -/
  Decrypt : Crypt → Bytes → Except Error Bytes
  /-- Go `json.Marshal` of a `TransferMessage`. -/
  Marshal : TransferMessage → Except Error Bytes
  /-- Go `json.Unmarshal` into a `TransferMessage`. -/
  Unmarshal : Bytes → Except Error TransferMessage
  /-- Go `tools.GetOpenPort`. -/
  GetOpenPort : Except Error Int

/-- What the transport will deliver and answer, and what has happened so far. -/
structure World where
  /-- Results of the successive `ReadJSON` calls on the connection. -/
  rendezvousIn : List (Except Error RendezvousMessage)
  /-- Results of the successive `ReadMessage` calls on the connection. -/
  framesIn : List (Except Error Bytes)
  /-- Results of the successive writes (`WriteJSON`, `WriteMessage`). -/
  writeResults : List (Option Error)
  /-- Number of `Encrypt` calls made so far. -/
  encryptCalls : Nat
  /-- The sender being run. -/
  sender : Sender
  /-- Events so far, oldest first. -/
  trace : List Event

/-- A computation that may return an error and always leaves a world. -/
def Exec (α : Type) : Type := World → Except Error α × World

def Exec.pure {α : Type} (a : α) : Exec α := fun w => (Except.ok a, w)

def Exec.bind {α β : Type} (m : Exec α) (f : α → Exec β) : Exec β := fun w =>
  match m w with
  | (Except.ok a, w1) => f a w1
  | (Except.error e, w1) => (Except.error e, w1)

instance : Monad Exec where
  pure := Exec.pure
  bind := Exec.bind

/-- Record an event. -/
def emit (e : Event) : Exec Unit := fun w =>
  (Except.ok (), { w with trace := w.trace ++ [e] })

/-- Go `return err`. -/
def fail {α : Type} (e : Error) : Exec α := fun w => (Except.error e, w)

/-- A call statement whose returned error is dropped by the caller. -/
def ignoreError {α : Type} (m : Exec α) : Exec Unit := fun w =>
  (Except.ok (), (m w).2)

/-- The error of an `Except`, as Go's `err` (`none` is `nil`). -/
def errOf {α : Type} : Except Error α → Option Error
  | Except.ok _ => none
  | Except.error e => some e

/-- A call to a computing collaborator: record its event, return its result. -/
def call {α : Type} (r : Except Error α) (ev : Option Error → Event) : Exec α := fun w =>
  (r, { w with trace := w.trace ++ [ev (errOf r)] })

/-- The value of an `Except`, when there is one. -/
def valOf {α : Type} : Except Error α → Option α
  | Except.ok a => some a
  | Except.error _ => none

/-! ## The transport and the channels -/

/-- Go `websocket.DefaultDialer.Dial(...)` at the head of `ConnectToRendezvous`. -/
def Dial (env : Env) : Exec Conn := fun w =>
  (env.Dial, { w with trace := w.trace ++ [Event.dial (valOf env.Dial) (errOf env.Dial)] })

/-- Modelled from the spec: `tools.ReadRendevouzMessage(wsConn, expected)` is not
among the sources.  It reads the next signaling message and, as the spec's
signaling protocol says ("receiving any other type at a given state is a
protocol error"), returns an error unless the message has the expected type.
This is its result on the signaling messages still to come. -/
def expectMessage (expected : RendezvousMessageType) :
    List (Except Error RendezvousMessage) → Except Error RendezvousMessage
  | [] => Except.error Error.closed
  | Except.error e :: _ => Except.error e
  | Except.ok msg :: _ =>
    if msg.type = expected then Except.ok msg
    else Except.error (Error.wrongRendezvousType expected msg.type)

/-- Modelled from the spec: `tools.ReadRendevouzMessage(wsConn, expected)`, which
is not among the sources: `expectMessage` on the connection, consuming one
message. -/
def ReadRendevouzMessage (expected : RendezvousMessageType) : Exec RendezvousMessage := fun w =>
  (expectMessage expected w.rendezvousIn,
   { w with rendezvousIn := w.rendezvousIn.tail
            trace := w.trace ++
              [Event.readRendezvous expected (errOf (expectMessage expected w.rendezvousIn))] })

/-- The result the transport gives to the next write (`nil` once the list of
scripted results is used up). -/
def nextWriteResult (writeResults : List (Option Error)) : Option Error :=
  match writeResults with
  | [] => none
  | r :: _ => r

def resultOf : Option Error → Except Error Unit
  | none => Except.ok ()
  | some e => Except.error e

/-- Go `wsConn.WriteJSON(msg)`. -/
def WriteJSON (msg : RendezvousMessage) : Exec Unit := fun w =>
  (resultOf (nextWriteResult w.writeResults),
   { w with writeResults := w.writeResults.tail
            trace := w.trace ++ [Event.writeJSON msg (nextWriteResult w.writeResults)] })

/-- Go `wsConn.WriteMessage(websocket.BinaryMessage, data)`; `msg` is the
transfer message `data` was made from, kept in the event. -/
def WriteMessage (msg : TransferMessage) (data : Bytes) : Exec Unit := fun w =>
  (resultOf (nextWriteResult w.writeResults),
   { w with writeResults := w.writeResults.tail
            trace := w.trace ++ [Event.writeMessage msg data (nextWriteResult w.writeResults)] })

/-- Go `wsConn.ReadMessage()`: the next binary frame. -/
def ReadMessage : Exec Bytes := fun w =>
  (match w.framesIn with
   | [] => Except.error Error.closed
   | r :: _ => r,
   { w with framesIn := w.framesIn.tail })

/-- Go `crypt.Encrypt(json)`. -/
def Encrypt (env : Env) (crypt : Crypt) (plain : Bytes) : Exec Bytes := fun w =>
  (env.Encrypt w.encryptCalls crypt plain, { w with encryptCalls := w.encryptCalls + 1 })

/-- Lift a result that needs no world. -/
def liftExcept {α : Type} (r : Except Error α) : Exec α := fun w => (r, w)

/-! ## `rendezvous_client.go` -/

/-- Go `writeEncryptedMessage`: a failed marshal returns `nil`, a failed
encryption returns the error, and the result of `WriteMessage` is dropped. -/
def writeEncryptedMessage (env : Env) (msg : TransferMessage) (crypt : Crypt) : Exec Unit :=
  match env.Marshal msg with
  | Except.error _ => pure ()
  | Except.ok json => do
    let enc ← Encrypt env crypt json
    ignoreError (WriteMessage msg enc)
    pure ()

/-- Go `readEncryptedMessage`, without the event of its return. -/
def readEncryptedMessageCore (env : Env) (crypt : Crypt) : Exec TransferMessage := do
  let enc ← ReadMessage
  let dec ← liftExcept (env.Decrypt crypt enc)
  let msg ← liftExcept (env.Unmarshal dec)
  pure msg

/-- Go `readEncryptedMessage`; what it returns is recorded as an event. -/
def readEncryptedMessage (env : Env) (crypt : Crypt) : Exec TransferMessage := fun w =>
  let r := readEncryptedMessageCore env crypt w
  (r.1, { r.2 with trace := r.2.trace ++ [Event.readEncrypted (valOf r.1) (errOf r.1)] })

/-- Go `s.crypt, err = crypt.New(sessionkey)`: the field is assigned whatever
`crypt.New` returned. -/
def newCrypt (env : Env) (sessionkey : Bytes) : Exec Crypt := fun w =>
  (env.CryptNew sessionkey,
   { w with sender := { w.sender with crypt := valOf (env.CryptNew sessionkey) }
            trace := w.trace ++ [Event.cryptNew (errOf (env.CryptNew sessionkey))] })

/-- Go `s.payloadSize`. -/
def getPayloadSize : Exec Int := fun w => (Except.ok w.sender.payloadSize, w)

/-- Go `(s *Sender) ConnectToRendezvous(passwordCh, startServerCh, payloadReady,
relayCh) error`.  The returned error is the `Except.error` outcome, `nil` is
`Except.ok ()`. -/
def ConnectToRendezvous (env : Env) : Exec Unit := do
  -- establish websocket connection to rendezvous
  let wsConn ← Dial env
  -- bind connection
  let rendezvousMsg ← ReadRendevouzMessage RendezvousMessageType.RendezvousToSenderBind
  let bindPayloadID ← call (env.DecodeBindPayload rendezvousMsg.Payload) Event.decodePayload
  -- Establish sender
  let password := env.GeneratePassword bindPayloadID
  let hashed := env.HashPassword password
  ignoreError (WriteJSON
    { type := RendezvousMessageType.SenderToRendezvousEstablish
      Payload := Payload.PasswordPayload hashed })
  -- send the generated password to the UI so it can be displayed.
  emit (Event.sendPassword password)
  -- init PAKE2
  let pake ← call (env.InitCurve password) Event.pakeInitCurve
  -- Ready to exchange crypto information.
  let _ ← ReadRendevouzMessage RendezvousMessageType.RendezvousToSenderReady
  -- PAKE sender -> receiver.
  ignoreError (WriteJSON
    { type := RendezvousMessageType.SenderToRendezvousPAKE
      Payload := Payload.PakePayload (env.PakeBytes pake) })
  -- PAKE receiver -> sender.
  let rendezvousMsg ← ReadRendevouzMessage RendezvousMessageType.RendezvousToSenderPAKE
  let pakePayloadBytes ← call (env.DecodePakePayload rendezvousMsg.Payload) Event.decodePayload
  let pake ← call (env.PakeUpdate pake pakePayloadBytes) Event.pakeUpdate
  -- Setup crypt.Crypt struct in Sender.
  let sessionkey ← call (env.SessionKey pake) Event.pakeSessionKey
  let crypt ← newCrypt env sessionkey
  -- Send salt to receiver.
  ignoreError (WriteJSON
    { type := RendezvousMessageType.SenderToRendezvousSalt
      Payload := Payload.SaltPayload crypt.Salt })
  let transferMsg ← readEncryptedMessage env crypt
  if transferMsg.type ≠ TransferMessageType.ReceiverHandshake then
    fail (Error.wrongMessageType [TransferMessageType.ReceiverHandshake] transferMsg.type)
  else do
  let handshakePayloadIP ← call (env.DecodeHandshakePayload transferMsg.Payload) Event.decodePayload
  let senderPort ← call env.GetOpenPort Event.getOpenPort
  -- wait for payload to be ready
  emit Event.payloadReady
  emit (Event.startServer { port := senderPort, receiverIP := handshakePayloadIP })
  let payloadSize ← getPayloadSize
  let handshake : TransferMessage :=
    { type := TransferMessageType.SenderHandshake
      Payload := Payload.SenderHandshakePayload wsConn.localIP senderPort payloadSize }
  ignoreError (writeEncryptedMessage env handshake crypt)
  let transferMsg ← readEncryptedMessage env crypt
  match transferMsg.type with
  | TransferMessageType.ReceiverDirectCommunication => do
    emit Event.closeRelay
    ignoreError (writeEncryptedMessage env
      { type := TransferMessageType.SenderDirectAck, Payload := Payload.empty } crypt)
    pure ()
  | TransferMessageType.ReceiverRelayCommunication => do
    ignoreError (writeEncryptedMessage env
      { type := TransferMessageType.SenderRelayAck, Payload := Payload.empty } crypt)
    emit (Event.sendRelay wsConn)
    pure ()
  | _ =>
    fail (Error.wrongMessageType
      [TransferMessageType.ReceiverDirectCommunication,
       TransferMessageType.ReceiverRelayCommunication] transferMsg.type)

/-- What a run starts from: the sender and what the transport will answer. -/
structure Inputs where
  sender : Sender
  rendezvousIn : List (Except Error RendezvousMessage)
  framesIn : List (Except Error Bytes)
  writeResults : List (Option Error)

def World.start (inp : Inputs) : World :=
  { rendezvousIn := inp.rendezvousIn
    framesIn := inp.framesIn
    writeResults := inp.writeResults
    encryptCalls := 0
    sender := inp.sender
    trace := [] }

/-- One run of `ConnectToRendezvous` from a fresh world. -/
def run (env : Env) (inp : Inputs) : Except Error Unit × World :=
  ConnectToRendezvous env (World.start inp)

/-- The error `ConnectToRendezvous` returned (`none` is `nil`). -/
def returned (env : Env) (inp : Inputs) : Option Error := errOf (run env inp).1

/-- The events of the run, oldest first. -/
def events (env : Env) (inp : Inputs) : List Event := (run env inp).2.trace

/-- The session's Crypt Context after the run: the sender's `crypt` field. -/
def sessionCrypt (env : Env) (inp : Inputs) : Option Crypt := (run env inp).2.sender.crypt

/-- What `readEncryptedMessage` returns on the frames still to come. -/
def decodeFrame (env : Env) (crypt : Crypt) :
    List (Except Error Bytes) → Except Error TransferMessage
  | [] => Except.error Error.closed
  | Except.error e :: _ => Except.error e
  | Except.ok enc :: _ =>
    match env.Decrypt crypt enc with
    | Except.error e => Except.error e
    | Except.ok dec => env.Unmarshal dec

/-- The number of `Encrypt` calls one `writeEncryptedMessage(msg)` makes. -/
def marshalCalls (env : Env) (msg : TransferMessage) : Nat :=
  match env.Marshal msg with
  | Except.error _ => 0
  | Except.ok _ => 1

/-! ## The paths through `ConnectToRendezvous`

Every run follows the one straight line of the function up to the statement
that returns.  `canon` is the event list of that line up to the emission of the
server options; `Shape` lists the ways a run can end. -/

/-- The values a run obtains along the way, in the order it obtains them. -/
structure Vals where
  conn : Conn
  bindMsg : RendezvousMessage
  id : Int
  w1 : Option Error
  pake0 : Pake
  w2 : Option Error
  peerMsg : RendezvousMessage
  peerBytes : Bytes
  pake1 : Pake
  key : Bytes
  crypt : Crypt
  w3 : Option Error
  m1 : TransferMessage
  ip : IP
  port : Int

/-- Values for the steps a run has not reached. -/
def Vals.blank : Vals :=
  { conn := { id := 0, localIP := [] }
    bindMsg := { type := RendezvousMessageType.unknown 0, Payload := Payload.empty }
    id := 0
    w1 := none
    pake0 := { state := [] }
    w2 := none
    peerMsg := { type := RendezvousMessageType.unknown 0, Payload := Payload.empty }
    peerBytes := []
    pake1 := { state := [] }
    key := []
    crypt := { key := [], Salt := [] }
    w3 := none
    m1 := { type := TransferMessageType.unknown 0, Payload := Payload.empty }
    ip := []
    port := 0 }

/-- The three plaintext messages of the sender. -/
def establishMsg (env : Env) (v : Vals) : RendezvousMessage :=
  { type := RendezvousMessageType.SenderToRendezvousEstablish
    Payload := Payload.PasswordPayload (env.HashPassword (env.GeneratePassword v.id)) }

def pakeMsg (env : Env) (v : Vals) : RendezvousMessage :=
  { type := RendezvousMessageType.SenderToRendezvousPAKE
    Payload := Payload.PakePayload (env.PakeBytes v.pake0) }

def saltMsg (v : Vals) : RendezvousMessage :=
  { type := RendezvousMessageType.SenderToRendezvousSalt
    Payload := Payload.SaltPayload v.crypt.Salt }

/-- The sender's transfer handshake. -/
def handshakeMsg (inp : Inputs) (v : Vals) : TransferMessage :=
  { type := TransferMessageType.SenderHandshake
    Payload := Payload.SenderHandshakePayload v.conn.localIP v.port inp.sender.payloadSize }

def directAck : TransferMessage :=
  { type := TransferMessageType.SenderDirectAck, Payload := Payload.empty }

def relayAck : TransferMessage :=
  { type := TransferMessageType.SenderRelayAck, Payload := Payload.empty }

/-- The events of the straight line, every call succeeding, up to the emission
of the server options (19 events, numbered from 0). -/
def canon (env : Env) (v : Vals) : List Event :=
  [ Event.dial (some v.conn) none,
    Event.readRendezvous RendezvousMessageType.RendezvousToSenderBind none,
    Event.decodePayload none,
    Event.writeJSON (establishMsg env v) v.w1,
    Event.sendPassword (env.GeneratePassword v.id),
    Event.pakeInitCurve none,
    Event.readRendezvous RendezvousMessageType.RendezvousToSenderReady none,
    Event.writeJSON (pakeMsg env v) v.w2,
    Event.readRendezvous RendezvousMessageType.RendezvousToSenderPAKE none,
    Event.decodePayload none,
    Event.pakeUpdate none,
    Event.pakeSessionKey none,
    Event.cryptNew none,
    Event.writeJSON (saltMsg v) v.w3,
    Event.readEncrypted (some v.m1) none,
    Event.decodePayload none,
    Event.getOpenPort none,
    Event.payloadReady,
    Event.startServer { port := v.port, receiverIP := v.ip } ]

/-- The event of a checked call, when the call returns the error `e`. -/
def withErr (e : Error) : Event → Event
  | Event.dial _ _ => Event.dial none (some e)
  | Event.readRendezvous x _ => Event.readRendezvous x (some e)
  | Event.decodePayload _ => Event.decodePayload (some e)
  | Event.pakeInitCurve _ => Event.pakeInitCurve (some e)
  | Event.pakeUpdate _ => Event.pakeUpdate (some e)
  | Event.pakeSessionKey _ => Event.pakeSessionKey (some e)
  | Event.cryptNew _ => Event.cryptNew (some e)
  | Event.readEncrypted _ _ => Event.readEncrypted none (some e)
  | Event.getOpenPort _ => Event.getOpenPort (some e)
  | ev => ev

/-- The events of a run whose step number `k` returns the error `e`. -/
def failAt (t : List Event) (k : Nat) (e : Error) : List Event :=
  t.take k ++ ((t.drop k).take 1).map (withErr e)

/-- The steps of `canon` whose error is checked by the caller. -/
def checkedSteps : List Nat := [0, 1, 2, 5, 6, 8, 9, 10, 11, 12, 14, 15, 16]

/-- The events of one `writeEncryptedMessage(msg)` whose `Encrypt` is call number
`n` and whose `WriteMessage` returns `wr`: one binary frame, or nothing when the
marshal or the encryption fails. -/
def sealedFrames (env : Env) (n : Nat) (crypt : Crypt) (msg : TransferMessage)
    (wr : Option Error) : List Event :=
  match env.Marshal msg with
  | Except.error _ => []
  | Except.ok json =>
    match env.Encrypt n crypt json with
    | Except.error _ => []
    | Except.ok enc => [Event.writeMessage msg enc wr]

/-- The session is bound: dialled, Bind read and decoded. -/
def Bound (env : Env) (inp : Inputs) (v : Vals) : Prop :=
  env.Dial = Except.ok v.conn ∧
  expectMessage RendezvousMessageType.RendezvousToSenderBind inp.rendezvousIn =
    Except.ok v.bindMsg ∧
  env.DecodeBindPayload v.bindMsg.Payload = Except.ok v.id

/-- The session has its Crypt Context. -/
def Keyed (env : Env) (inp : Inputs) (v : Vals) : Prop :=
  Bound env inp v ∧
  env.InitCurve (env.GeneratePassword v.id) = Except.ok v.pake0 ∧
  env.DecodePakePayload v.peerMsg.Payload = Except.ok v.peerBytes ∧
  env.PakeUpdate v.pake0 v.peerBytes = Except.ok v.pake1 ∧
  env.SessionKey v.pake1 = Except.ok v.key ∧
  env.CryptNew v.key = Except.ok v.crypt ∧
  sessionCrypt env inp = some v.crypt

/-- The receiver's handshake is in and the listener port is chosen. -/
def Shaken (env : Env) (inp : Inputs) (v : Vals) : Prop :=
  Keyed env inp v ∧
  v.m1.type = TransferMessageType.ReceiverHandshake ∧
  env.DecodeHandshakePayload v.m1.Payload = Except.ok v.ip ∧
  env.GetOpenPort = Except.ok v.port

/-- The ways a run of `ConnectToRendezvous` ends: the error returned and the
events, oldest first. -/
inductive Shape (env : Env) (inp : Inputs) : Option Error → List Event → Prop where
  | failed (v : Vals) (k : Nat) (e : Error) (hk : k ∈ checkedSteps)
      (hB : 5 ≤ k → Bound env inp v) (hK : 14 ≤ k → Keyed env inp v)
      (hT : 15 ≤ k → v.m1.type = TransferMessageType.ReceiverHandshake) :
      Shape env inp (some e) (failAt (canon env v) k e)
  | wrongFirst (v : Vals) (hK : Keyed env inp v)
      (hm : v.m1.type ≠ TransferMessageType.ReceiverHandshake) :
      Shape env inp
        (some (Error.wrongMessageType [TransferMessageType.ReceiverHandshake] v.m1.type))
        ((canon env v).take 15)
  | readFailed (v : Vals) (w4 : Option Error) (e : Error) (hS : Shaken env inp v) :
      Shape env inp (some e)
        (canon env v ++ sealedFrames env 0 v.crypt (handshakeMsg inp v) w4 ++
          [Event.readEncrypted none (some e)])
  | direct (v : Vals) (w4 w5 : Option Error) (n : Nat) (m2 : TransferMessage)
      (hS : Shaken env inp v)
      (hm : m2.type = TransferMessageType.ReceiverDirectCommunication) :
      Shape env inp none
        (canon env v ++ sealedFrames env 0 v.crypt (handshakeMsg inp v) w4 ++
          [Event.readEncrypted (some m2) none, Event.closeRelay] ++
          sealedFrames env n v.crypt directAck w5)
  | relay (v : Vals) (w4 w5 : Option Error) (n : Nat) (m2 : TransferMessage)
      (hS : Shaken env inp v)
      (hm : m2.type = TransferMessageType.ReceiverRelayCommunication) :
      Shape env inp none
        (canon env v ++ sealedFrames env 0 v.crypt (handshakeMsg inp v) w4 ++
          [Event.readEncrypted (some m2) none] ++
          sealedFrames env n v.crypt relayAck w5 ++ [Event.sendRelay v.conn])
  | wrongSecond (v : Vals) (w4 : Option Error) (m2 : TransferMessage)
      (hS : Shaken env inp v)
      (hd : m2.type ≠ TransferMessageType.ReceiverDirectCommunication)
      (hr : m2.type ≠ TransferMessageType.ReceiverRelayCommunication) :
      Shape env inp
        (some (Error.wrongMessageType
          [TransferMessageType.ReceiverDirectCommunication,
           TransferMessageType.ReceiverRelayCommunication] m2.type))
        (canon env v ++ sealedFrames env 0 v.crypt (handshakeMsg inp v) w4 ++
          [Event.readEncrypted (some m2) none])


/-! ## Reading an event list in time -/

/-- The property `Q before x after` holds at every element `x` of the list,
`before` being the elements in front of it and `after` those behind it. -/
def AllCuts {α : Type} (Q : List α → α → List α → Prop) : List α → Prop
  | [] => True
  | a :: l => Q [] a l ∧ AllCuts (fun pre x post => Q (a :: pre) x post) l

/-- The return of `readEncryptedMessage`. -/
def Event.isReadEncrypted : Event → Bool
  | Event.readEncrypted _ _ => true
  | _ => false

/-! ## A concrete session

Scenario A of the spec: session id 7, password `7-apple-river`. -/

/-- Collaborators that all succeed. -/
def sampleEnv : Env :=
  { Dial := Except.ok { id := 1, localIP := [10, 0, 0, 1] }
    DecodeBindPayload := fun _ => Except.ok 7
    DecodePakePayload := fun _ => Except.ok [1, 2]
    DecodeHandshakePayload := fun _ => Except.ok [10, 0, 0, 2]
    GeneratePassword := fun _ => "7-apple-river"
    HashPassword := fun _ => "digest"
    InitCurve := fun _ => Except.ok { state := [0] }
    PakeBytes := fun p => p.state
    PakeUpdate := fun p b => Except.ok { state := p.state ++ b }
    SessionKey := fun p => Except.ok p.state
    CryptNew := fun k => Except.ok { key := k, Salt := [9] }
    Encrypt := fun n _ b => Except.ok (n :: b)
    Decrypt := fun _ b => Except.ok b
    Marshal := fun m =>
      match m.type with
      | TransferMessageType.SenderHandshake => Except.ok [1]
      | TransferMessageType.SenderDirectAck => Except.ok [3]
      | TransferMessageType.SenderRelayAck => Except.ok [5]
      | _ => Except.ok [99]
    Unmarshal := fun b =>
      match b with
      | [0] => Except.ok { type := TransferMessageType.ReceiverHandshake, Payload := Payload.raw [0] }
      | [2] => Except.ok
          { type := TransferMessageType.ReceiverDirectCommunication, Payload := Payload.empty }
      | [4] => Except.ok
          { type := TransferMessageType.ReceiverRelayCommunication, Payload := Payload.empty }
      | [n] => Except.ok { type := TransferMessageType.unknown n, Payload := Payload.empty }
      | _ => Except.error (Error.external 3)
    GetOpenPort := Except.ok 4242 }

/-- The rendezvous server answers Bind, Ready and the peer's PAKE bytes; the
receiver then sends the given frames; the writes return the given results. -/
def sampleInputs (frames : List Bytes) (writes : List (Option Error)) : Inputs :=
  { sender := { payloadSize := 1000, crypt := none }
    rendezvousIn :=
      [ Except.ok { type := RendezvousMessageType.RendezvousToSenderBind, Payload := Payload.raw [7] },
        Except.ok { type := RendezvousMessageType.RendezvousToSenderReady, Payload := Payload.empty },
        Except.ok { type := RendezvousMessageType.RendezvousToSenderPAKE, Payload := Payload.raw [1, 2] } ]
    framesIn := frames.map Except.ok
    writeResults := writes }

/-- The events of the sample session up to and including the Salt message. -/
def sampleSignaling : List Event :=
  [ Event.dial (some { id := 1, localIP := [10, 0, 0, 1] }) none,
    Event.readRendezvous RendezvousMessageType.RendezvousToSenderBind none,
    Event.decodePayload none,
    Event.writeJSON { type := RendezvousMessageType.SenderToRendezvousEstablish,
                      Payload := Payload.PasswordPayload "digest" } none,
    Event.sendPassword "7-apple-river",
    Event.pakeInitCurve none,
    Event.readRendezvous RendezvousMessageType.RendezvousToSenderReady none,
    Event.writeJSON { type := RendezvousMessageType.SenderToRendezvousPAKE,
                      Payload := Payload.PakePayload [0] } none,
    Event.readRendezvous RendezvousMessageType.RendezvousToSenderPAKE none,
    Event.decodePayload none,
    Event.pakeUpdate none,
    Event.pakeSessionKey none,
    Event.cryptNew none,
    Event.writeJSON { type := RendezvousMessageType.SenderToRendezvousSalt,
                      Payload := Payload.SaltPayload [9] } none ]

/-- The hand-over of the connection on the relay channel. -/
def Event.isSendRelay : Event → Bool
  | Event.sendRelay _ => true
  | _ => false

/-- The closing of the relay channel. -/
def Event.isCloseRelay : Event → Bool
  | Event.closeRelay => true
  | _ => false

/-- The sample collaborators, with a Crypt Context whose `Encrypt` works once
and fails from its second call on. -/
def encryptOnceEnv : Env :=
  { sampleEnv with
    Encrypt := fun n _ b => if n = 0 then Except.ok (n :: b) else Except.error (Error.external 9) }

/-- The events of the sample session from the receiver's handshake to the
sender's handshake. -/
def sampleHandshake : List Event :=
  [ Event.readEncrypted
      (some { type := TransferMessageType.ReceiverHandshake, Payload := Payload.raw [0] }) none,
    Event.decodePayload none,
    Event.getOpenPort none,
    Event.payloadReady,
    Event.startServer { port := 4242, receiverIP := [10, 0, 0, 2] },
    Event.writeMessage
      { type := TransferMessageType.SenderHandshake,
        Payload := Payload.SenderHandshakePayload [10, 0, 0, 1] 4242 1000 } [0, 1] none ]

/-- A binary frame written by `writeEncryptedMessage`. -/
def Event.isWriteMessage : Event → Bool
  | Event.writeMessage _ _ _ => true
  | _ => false

/-- A plaintext signaling message written by `WriteJSON`. -/
def Event.isWriteJSON : Event → Bool
  | Event.writeJSON _ _ => true
  | _ => false

/-- The successful return of `crypt.New`. -/
def Event.isCryptNewOk : Event → Bool
  | Event.cryptNew none => true
  | _ => false

/-- The successful return of `pake.SessionKey`. -/
def Event.isSessionKeyOk : Event → Bool
  | Event.pakeSessionKey none => true
  | _ => false

/-- An event that, if it is a write on the signaling transport, is a binary frame
whose bytes are the output of the session Crypt Context's `Encrypt` applied to
the JSON encoding of the transfer message. -/
def SealedWrite (env : Env) (inp : Inputs) : Event → Prop
  | Event.writeJSON _ _ => False
  | Event.writeMessage msg data _ =>
    ∃ crypt n json, sessionCrypt env inp = some crypt ∧ env.Marshal msg = Except.ok json ∧
      env.Encrypt n crypt json = Except.ok data
  | _ => True

/-- The events of the sample session after the sender's handshake, when the
receiver chooses the direct connection. -/
def sampleDirect : List Event :=
  [ Event.readEncrypted
      (some { type := TransferMessageType.ReceiverDirectCommunication, Payload := Payload.empty })
      none,
    Event.closeRelay,
    Event.writeMessage
      { type := TransferMessageType.SenderDirectAck, Payload := Payload.empty } [1, 3] none ]

/-- The types of the plaintext signaling messages written, in order. -/
def plainWrites (t : List Event) : List RendezvousMessageType :=
  t.filterMap fun x =>
    match x with
    | Event.writeJSON m _ => some m.type
    | _ => none

/-- The error returned by a call whose error the sender checks. -/
def Event.failure : Event → Option Error
  | Event.dial _ err => err
  | Event.readRendezvous _ err => err
  | Event.decodePayload err => err
  | Event.pakeInitCurve err => err
  | Event.pakeUpdate err => err
  | Event.pakeSessionKey err => err
  | Event.cryptNew err => err
  | Event.readEncrypted _ err => err
  | Event.getOpenPort err => err
  | _ => none

/-- The emission of the server options on the start-server channel. -/
def Event.isStartServer : Event → Bool
  | Event.startServer _ => true
  | _ => false

/-- The send of the password on the password channel. -/
def Event.isSendPassword : Event → Bool
  | Event.sendPassword _ => true
  | _ => false

/-- The call of `pake.InitCurve`. -/
def Event.isPakeInitCurve : Event → Bool
  | Event.pakeInitCurve _ => true
  | _ => false

/-- The error a write on the signaling transport returned. -/
def Event.writeError : Event → Option Error
  | Event.writeJSON _ err => err
  | Event.writeMessage _ _ err => err
  | _ => none

/-! ## `ui/receiver/receiver.go` -/

/-- Go `uiState`; the constants are declared with `iota` in this order, under the
comment "ui state flows from the top down". -/
inductive uiState where
  | showEstablishing
  | showReceivingProgress
  | showFinished
  | showError
  deriving DecidableEq, Repr

/-- The integer value of a `uiState` constant. -/
def uiState.toNat : uiState → Nat
  | uiState.showEstablishing => 0
  | uiState.showReceivingProgress => 1
  | uiState.showFinished => 2
  | uiState.showError => 3

/-- Go `spinner.Model`, as far as the receiver UI sees it. -/
structure Spinner where
  frame : Nat
  deriving DecidableEq, Repr

/-- Go `progress.Model`, as far as the receiver UI sees it; the percentage is a
`float64` in Go, it is only stored here. -/
structure ProgressBar where
  Width : Int
  percent : Rat
  deriving DecidableEq, Repr

/-- Go `tea.Cmd`: the command handed back to the runtime. -/
inductive Cmd where
  | nil
  | Quit
  | animate
  | tick
  deriving DecidableEq, Repr

/-- Go `tea.Msg`, with the cases `Update` distinguishes. -/
inductive Msg where
  | FileInfoMsg (Bytes : Int)
  | ProgressMsg (Progress : Rat)
  | FinishedMsg (Files : List String) (PayloadSize : Int)
  | ErrorMsg (Message : String)
  | KeyMsg (key : String)
  | WindowSizeMsg (Width : Int) (Height : Int)
  | FrameMsg
  | other (tag : Nat)
  deriving DecidableEq, Repr

/-- Go `receiverUIModel`. -/
structure receiverUIModel where
  state : uiState
  receivedFiles : List String
  payloadSize : Int
  decompressedPayloadSize : Int
  spinner : Spinner
  progressBar : ProgressBar
  errorMessage : String
  deriving DecidableEq, Repr

/-- The packages the receiver UI imports (`ui`, `tools`, `strings`, `bubbles`,
`reflow`): constants and functions, by their Go names. -/
structure UIEnv where
  QuitKeys : List String
  PADDING : Nat
  MAX_WIDTH : Int
  PadText : String
  QuitCommandsHelpText : String
  ByteCountSI : Int → String
  BoldText : String → String
  ItalicText : String → String
  InfoStyle : String → String
  TopLevelFilesText : List String → String
  /-- Go `wordwrap.String`. -/
  wordwrap : String → Int → String
  /-- Go `indent.String`. -/
  indent : String → Nat → String
  /-- Go `strings.ToLower`. -/
  ToLower : String → String
  /-- Go `(*progress.Model).SetPercent`. -/
  SetPercent : ProgressBar → Rat → ProgressBar × Cmd
  /-- Go `progress.Model.Update` on a `FrameMsg`. -/
  progressUpdate : ProgressBar → ProgressBar × Cmd
  /-- Go `progress.Model.View`. -/
  progressView : ProgressBar → String
  /-- Go `spinner.Model.Update`. -/
  spinnerUpdate : Spinner → Msg → Spinner × Cmd
  /-- Go `spinner.Model.View`. -/
  spinnerView : Spinner → String

/-- Go `(m receiverUIModel) Update(msg tea.Msg) (tea.Model, tea.Cmd)`. -/
def receiverUIModel.Update (ui : UIEnv) (m : receiverUIModel) (msg : Msg) :
    receiverUIModel × Cmd :=
  match msg with
  | Msg.FileInfoMsg bytes =>
    ({ m with state := uiState.showReceivingProgress, payloadSize := bytes }, Cmd.nil)
  | Msg.ProgressMsg progress =>
    let r := ui.SetPercent m.progressBar progress
    ({ m with state := uiState.showReceivingProgress, progressBar := r.1 }, r.2)
  | Msg.FinishedMsg files payloadSize =>
    let r := ui.SetPercent m.progressBar 1
    ({ m with state := uiState.showFinished, receivedFiles := files,
              decompressedPayloadSize := payloadSize, progressBar := r.1 }, r.2)
  | Msg.ErrorMsg message =>
    ({ m with state := uiState.showError, errorMessage := message }, Cmd.nil)
  | Msg.KeyMsg key =>
    if ui.ToLower key ∈ ui.QuitKeys then (m, Cmd.Quit) else (m, Cmd.nil)
  | Msg.WindowSizeMsg width _ =>
    let w := width - 2 * (ui.PADDING : Int) - 4
    ({ m with progressBar := { m.progressBar with
                Width := if w > ui.MAX_WIDTH then ui.MAX_WIDTH else w } }, Cmd.nil)
  | Msg.FrameMsg =>
    let r := ui.progressUpdate m.progressBar
    ({ m with progressBar := r.1 }, r.2)
  | Msg.other tag =>
    let r := ui.spinnerUpdate m.spinner (Msg.other tag)
    ({ m with spinner := r.1 }, r.2)

/-- The local `payloadSize` of the `showFinished` branch of `View`: the text put
in the "(... decompressed)" slot. -/
def receiverUIModel.finishedSize (ui : UIEnv) (m : receiverUIModel) : String :=
  ui.BoldText (ui.ByteCountSI m.payloadSize)

/-- The local `finishedText` of the `showFinished` branch of `View`. -/
def receiverUIModel.finishedText (ui : UIEnv) (m : receiverUIModel) : String :=
  "File transfer completed! Received " ++ toString m.receivedFiles.length ++ " files (" ++
    m.finishedSize ui ++ " decompressed)\n\n" ++
    ui.indent ("Received: " ++
      ui.wordwrap (ui.ItalicText (ui.TopLevelFilesText m.receivedFiles)) ui.MAX_WIDTH) ui.PADDING

/-- Go `(m receiverUIModel) View() string`. -/
def receiverUIModel.View (ui : UIEnv) (m : receiverUIModel) : String :=
  match m.state with
  | uiState.showEstablishing =>
    "\n" ++ ui.PadText ++
      ui.InfoStyle (ui.spinnerView m.spinner ++ " Establishing connection with sender") ++ "\n\n"
  | uiState.showReceivingProgress =>
    "\n" ++ ui.PadText ++
      ui.InfoStyle ("Receiving files (total size " ++
        ui.BoldText (ui.ByteCountSI m.payloadSize) ++ ")") ++ "\n\n" ++
      ui.PadText ++ ui.progressView m.progressBar ++ "\n\n" ++
      ui.PadText ++ ui.QuitCommandsHelpText ++ "\n\n"
  | uiState.showFinished =>
    "\n" ++ ui.PadText ++ ui.InfoStyle (m.finishedText ui) ++ "\n\n" ++
      ui.PadText ++ ui.progressView m.progressBar ++ "\n\n" ++
      ui.PadText ++ ui.QuitCommandsHelpText ++ "\n\n"
  | uiState.showError => m.errorMessage

/-- A plain rendering: no styling, sizes printed as a number of bytes. -/
def sampleUI : UIEnv :=
  { QuitKeys := ["q", "esc", "ctrl+c"]
    PADDING := 2
    MAX_WIDTH := 80
    PadText := "  "
    QuitCommandsHelpText := "(any of [q, esc, ctrl+c] to abort)"
    ByteCountSI := fun n => toString n ++ " B"
    BoldText := fun s => s
    ItalicText := fun s => s
    InfoStyle := fun s => s
    TopLevelFilesText := fun files => ", ".intercalate files
    wordwrap := fun s _ => s
    indent := fun s _ => s
    ToLower := fun s => s
    SetPercent := fun p x => ({ p with percent := x }, Cmd.animate)
    progressUpdate := fun p => (p, Cmd.animate)
    progressView := fun _ => "[bar]"
    spinnerUpdate := fun s _ => ({ frame := s.frame + 1 }, Cmd.tick)
    spinnerView := fun _ => "*" }

/-- A receiver UI that has been told the compressed payload is 100 bytes. -/
def sampleReceiving : receiverUIModel :=
  { state := uiState.showReceivingProgress
    receivedFiles := []
    payloadSize := 100
    decompressedPayloadSize := 0
    spinner := { frame := 0 }
    progressBar := { Width := 40, percent := 0 }
    errorMessage := "" }

/-! ## Stepping through a computation -/

theorem bind_fst_ok {α β : Type} (m : Exec α) (f : α → Exec β) (w : World) (a : α)
    (h : (m w).1 = Except.ok a) : (m >>= f) w = f a (m w).2 := by
  show Exec.bind m f w = _
  unfold Exec.bind
  rcases hm : m w with ⟨r, w1⟩
  rw [hm] at h
  simp only at h
  subst h
  rfl

theorem bind_fst_err {α β : Type} (m : Exec α) (f : α → Exec β) (w : World) (e : Error)
    (h : (m w).1 = Except.error e) : (m >>= f) w = (Except.error e, (m w).2) := by
  show Exec.bind m f w = _
  unfold Exec.bind
  rcases hm : m w with ⟨r, w1⟩
  rw [hm] at h
  simp only at h
  subst h
  rfl

theorem readEncryptedMessageCore_eq (env : Env) (crypt : Crypt) (w : World) :
    readEncryptedMessageCore env crypt w =
      (decodeFrame env crypt w.framesIn, { w with framesIn := w.framesIn.tail }) := by
  unfold readEncryptedMessageCore
  rcases hf : w.framesIn with _ | ⟨r, rest⟩
  · rw [bind_fst_err _ _ _ Error.closed (by simp [ReadMessage, hf])]
    simp [ReadMessage, hf, decodeFrame]
  · rcases r with e | enc
    · rw [bind_fst_err _ _ _ e (by simp [ReadMessage, hf])]
      simp [ReadMessage, hf, decodeFrame]
    · rw [bind_fst_ok _ _ _ enc (by simp [ReadMessage, hf])]
      rcases hdec : env.Decrypt crypt enc with e | dec
      · rw [bind_fst_err _ _ _ e (by simp [liftExcept, hdec])]
        simp [ReadMessage, hf, decodeFrame, hdec, liftExcept]
      · rw [bind_fst_ok _ _ _ dec (by simp [liftExcept, hdec])]
        rcases hun : env.Unmarshal dec with e | msg
        · rw [bind_fst_err _ _ _ e (by simp [liftExcept, hun])]
          simp [ReadMessage, hf, decodeFrame, hdec, hun, liftExcept]
        · rw [bind_fst_ok _ _ _ msg (by simp [liftExcept, hun])]
          simp [ReadMessage, hf, decodeFrame, hdec, hun, liftExcept, pure, Exec.pure]

theorem readEncryptedMessage_fst (env : Env) (crypt : Crypt) (w : World) :
    (readEncryptedMessage env crypt w).1 = decodeFrame env crypt w.framesIn := by
  simp [readEncryptedMessage, readEncryptedMessageCore_eq]

theorem readEncryptedMessage_snd (env : Env) (crypt : Crypt) (w : World) :
    (readEncryptedMessage env crypt w).2 =
      { w with framesIn := w.framesIn.tail
               trace := w.trace ++
                 [Event.readEncrypted (valOf (decodeFrame env crypt w.framesIn))
                   (errOf (decodeFrame env crypt w.framesIn))] } := by
  simp [readEncryptedMessage, readEncryptedMessageCore_eq]

theorem writeEncryptedMessage_snd (env : Env) (msg : TransferMessage) (crypt : Crypt)
    (w : World) :
    (writeEncryptedMessage env msg crypt w).2 =
      { w with
        writeResults :=
          w.writeResults.drop (sealedFrames env w.encryptCalls crypt msg none).length
        encryptCalls := w.encryptCalls + marshalCalls env msg
        trace := w.trace ++
          sealedFrames env w.encryptCalls crypt msg (nextWriteResult w.writeResults) } := by
  unfold writeEncryptedMessage
  rcases hm : env.Marshal msg with e | json
  · simp [sealedFrames, marshalCalls, hm, pure, Exec.pure]
  · simp only []
    rcases he : env.Encrypt w.encryptCalls crypt json with e | enc
    · rw [bind_fst_err _ _ _ e (by simp [Encrypt, he])]
      simp [sealedFrames, marshalCalls, hm, he, Encrypt]
    · rw [bind_fst_ok _ _ _ enc (by simp [Encrypt, he])]
      rw [bind_fst_ok _ _ _ () (by simp [ignoreError])]
      simp [sealedFrames, marshalCalls, hm, he, Encrypt, ignoreError, WriteMessage, pure,
        Exec.pure]

/-- Every run of `ConnectToRendezvous` ends in one of the ways of `Shape`. -/
theorem run_shape (env : Env) (inp : Inputs) :
    Shape env inp (returned env inp) (events env inp) := by
  have hR : run env inp = ConnectToRendezvous env (World.start inp) := rfl
  unfold ConnectToRendezvous at hR
  rcases hd : env.Dial with e | conn
  · rw [bind_fst_err _ _ _ e (by simp [Dial, ReadRendevouzMessage, call, emit, ignoreError, WriteJSON, newCrypt, getPayloadSize, World.start, errOf, valOf, readEncryptedMessage_fst, readEncryptedMessage_snd, writeEncryptedMessage_snd, hd])] at hR
    have h1 : returned env inp = some e := by simp [returned, hR, errOf]
    have h2 : events env inp = failAt (canon env Vals.blank) 0 e := by
      simp [events, hR, Dial, ReadRendevouzMessage, call, emit, ignoreError, WriteJSON, newCrypt, getPayloadSize, World.start, errOf, valOf, readEncryptedMessage_fst, readEncryptedMessage_snd, writeEncryptedMessage_snd, hd, failAt, canon, withErr, establishMsg, pakeMsg, saltMsg]
    rw [h1, h2]
    exact Shape.failed _ 0 e (by decide) (fun h => absurd h (by decide))
      (fun h => absurd h (by decide)) (fun h => absurd h (by decide))
  rw [bind_fst_ok _ _ _ conn (by simp [Dial, ReadRendevouzMessage, call, emit, ignoreError, WriteJSON, newCrypt, getPayloadSize, World.start, errOf, valOf, readEncryptedMessage_fst, readEncryptedMessage_snd, writeEncryptedMessage_snd, hd])] at hR
  rcases hb : expectMessage RendezvousMessageType.RendezvousToSenderBind inp.rendezvousIn with e | msg1
  · rw [bind_fst_err _ _ _ e (by simp [Dial, ReadRendevouzMessage, call, emit, ignoreError, WriteJSON, newCrypt, getPayloadSize, World.start, errOf, valOf, readEncryptedMessage_fst, readEncryptedMessage_snd, writeEncryptedMessage_snd, hd, hb])] at hR
    have h1 : returned env inp = some e := by simp [returned, hR, errOf]
    have h2 : events env inp = failAt (canon env { Vals.blank with conn := conn }) 1 e := by
      simp [events, hR, Dial, ReadRendevouzMessage, call, emit, ignoreError, WriteJSON, newCrypt, getPayloadSize, World.start, errOf, valOf, readEncryptedMessage_fst, readEncryptedMessage_snd, writeEncryptedMessage_snd, hd, hb, failAt, canon, withErr, establishMsg, pakeMsg, saltMsg]
    rw [h1, h2]
    exact Shape.failed _ 1 e (by decide) (fun h => absurd h (by decide))
      (fun h => absurd h (by decide)) (fun h => absurd h (by decide))
  rw [bind_fst_ok _ _ _ msg1 (by simp [Dial, ReadRendevouzMessage, call, emit, ignoreError, WriteJSON, newCrypt, getPayloadSize, World.start, errOf, valOf, readEncryptedMessage_fst, readEncryptedMessage_snd, writeEncryptedMessage_snd, hd, hb])] at hR
  rcases hid : env.DecodeBindPayload msg1.Payload with e | id
  · rw [bind_fst_err _ _ _ e (by simp [Dial, ReadRendevouzMessage, call, emit, ignoreError, WriteJSON, newCrypt, getPayloadSize, World.start, errOf, valOf, readEncryptedMessage_fst, readEncryptedMessage_snd, writeEncryptedMessage_snd, hd, hb, hid])] at hR
    have h1 : returned env inp = some e := by simp [returned, hR, errOf]
    have h2 : events env inp = failAt (canon env { Vals.blank with conn := conn, bindMsg := msg1 }) 2 e := by
      simp [events, hR, Dial, ReadRendevouzMessage, call, emit, ignoreError, WriteJSON, newCrypt, getPayloadSize, World.start, errOf, valOf, readEncryptedMessage_fst, readEncryptedMessage_snd, writeEncryptedMessage_snd, hd, hb, hid, failAt, canon, withErr, establishMsg, pakeMsg, saltMsg]
    rw [h1, h2]
    exact Shape.failed _ 2 e (by decide) (fun h => absurd h (by decide))
      (fun h => absurd h (by decide)) (fun h => absurd h (by decide))
  rw [bind_fst_ok _ _ _ id (by simp [Dial, ReadRendevouzMessage, call, emit, ignoreError, WriteJSON, newCrypt, getPayloadSize, World.start, errOf, valOf, readEncryptedMessage_fst, readEncryptedMessage_snd, writeEncryptedMessage_snd, hd, hb, hid])] at hR
  try simp only [] at hR
  rw [bind_fst_ok _ _ _ () (by simp [Dial, ReadRendevouzMessage, call, emit, ignoreError, WriteJSON, newCrypt, getPayloadSize, World.start, errOf, valOf, readEncryptedMessage_fst, readEncryptedMessage_snd, writeEncryptedMessage_snd, hd, hb, hid])] at hR
  rw [bind_fst_ok _ _ _ () (by simp [Dial, ReadRendevouzMessage, call, emit, ignoreError, WriteJSON, newCrypt, getPayloadSize, World.start, errOf, valOf, readEncryptedMessage_fst, readEncryptedMessage_snd, writeEncryptedMessage_snd, hd, hb, hid])] at hR
  rcases hic : env.InitCurve (env.GeneratePassword id) with e | pake0
  · rw [bind_fst_err _ _ _ e (by simp [Dial, ReadRendevouzMessage, call, emit, ignoreError, WriteJSON, newCrypt, getPayloadSize, World.start, errOf, valOf, readEncryptedMessage_fst, readEncryptedMessage_snd, writeEncryptedMessage_snd, hd, hb, hid, hic])] at hR
    have h1 : returned env inp = some e := by simp [returned, hR, errOf]
    have h2 : events env inp = failAt (canon env { Vals.blank with conn := conn, bindMsg := msg1, id := id, w1 := nextWriteResult inp.writeResults }) 5 e := by
      simp [events, hR, Dial, ReadRendevouzMessage, call, emit, ignoreError, WriteJSON, newCrypt, getPayloadSize, World.start, errOf, valOf, readEncryptedMessage_fst, readEncryptedMessage_snd, writeEncryptedMessage_snd, hd, hb, hid, hic, failAt, canon, withErr, establishMsg, pakeMsg, saltMsg]
    rw [h1, h2]
    exact Shape.failed _ 5 e (by decide) (fun _ => ⟨hd, hb, hid⟩)
      (fun h => absurd h (by decide)) (fun h => absurd h (by decide))
  rw [bind_fst_ok _ _ _ pake0 (by simp [Dial, ReadRendevouzMessage, call, emit, ignoreError, WriteJSON, newCrypt, getPayloadSize, World.start, errOf, valOf, readEncryptedMessage_fst, readEncryptedMessage_snd, writeEncryptedMessage_snd, hd, hb, hid, hic])] at hR
  rcases hrd : expectMessage RendezvousMessageType.RendezvousToSenderReady inp.rendezvousIn.tail with e | msg2
  · rw [bind_fst_err _ _ _ e (by simp [Dial, ReadRendevouzMessage, call, emit, ignoreError, WriteJSON, newCrypt, getPayloadSize, World.start, errOf, valOf, readEncryptedMessage_fst, readEncryptedMessage_snd, writeEncryptedMessage_snd, hd, hb, hid, hic, hrd])] at hR
    have h1 : returned env inp = some e := by simp [returned, hR, errOf]
    have h2 : events env inp = failAt (canon env { Vals.blank with conn := conn, bindMsg := msg1, id := id, w1 := nextWriteResult inp.writeResults, pake0 := pake0 }) 6 e := by
      simp [events, hR, Dial, ReadRendevouzMessage, call, emit, ignoreError, WriteJSON, newCrypt, getPayloadSize, World.start, errOf, valOf, readEncryptedMessage_fst, readEncryptedMessage_snd, writeEncryptedMessage_snd, hd, hb, hid, hic, hrd, failAt, canon, withErr, establishMsg, pakeMsg, saltMsg]
    rw [h1, h2]
    exact Shape.failed _ 6 e (by decide) (fun _ => ⟨hd, hb, hid⟩)
      (fun h => absurd h (by decide)) (fun h => absurd h (by decide))
  rw [bind_fst_ok _ _ _ msg2 (by simp [Dial, ReadRendevouzMessage, call, emit, ignoreError, WriteJSON, newCrypt, getPayloadSize, World.start, errOf, valOf, readEncryptedMessage_fst, readEncryptedMessage_snd, writeEncryptedMessage_snd, hd, hb, hid, hic, hrd])] at hR
  try simp only [] at hR
  rw [bind_fst_ok _ _ _ () (by simp [Dial, ReadRendevouzMessage, call, emit, ignoreError, WriteJSON, newCrypt, getPayloadSize, World.start, errOf, valOf, readEncryptedMessage_fst, readEncryptedMessage_snd, writeEncryptedMessage_snd, hd, hb, hid, hic, hrd])] at hR
  rcases hpk : expectMessage RendezvousMessageType.RendezvousToSenderPAKE inp.rendezvousIn.tail.tail with e | msg3
  · rw [bind_fst_err _ _ _ e (by simp [Dial, ReadRendevouzMessage, call, emit, ignoreError, WriteJSON, newCrypt, getPayloadSize, World.start, errOf, valOf, readEncryptedMessage_fst, readEncryptedMessage_snd, writeEncryptedMessage_snd, hd, hb, hid, hic, hrd, hpk])] at hR
    have h1 : returned env inp = some e := by simp [returned, hR, errOf]
    have h2 : events env inp = failAt (canon env { Vals.blank with conn := conn, bindMsg := msg1, id := id, w1 := nextWriteResult inp.writeResults, pake0 := pake0, w2 := nextWriteResult inp.writeResults.tail }) 8 e := by
      simp [events, hR, Dial, ReadRendevouzMessage, call, emit, ignoreError, WriteJSON, newCrypt, getPayloadSize, World.start, errOf, valOf, readEncryptedMessage_fst, readEncryptedMessage_snd, writeEncryptedMessage_snd, hd, hb, hid, hic, hrd, hpk, failAt, canon, withErr, establishMsg, pakeMsg, saltMsg]
    rw [h1, h2]
    exact Shape.failed _ 8 e (by decide) (fun _ => ⟨hd, hb, hid⟩)
      (fun h => absurd h (by decide)) (fun h => absurd h (by decide))
  rw [bind_fst_ok _ _ _ msg3 (by simp [Dial, ReadRendevouzMessage, call, emit, ignoreError, WriteJSON, newCrypt, getPayloadSize, World.start, errOf, valOf, readEncryptedMessage_fst, readEncryptedMessage_snd, writeEncryptedMessage_snd, hd, hb, hid, hic, hrd, hpk])] at hR
  rcases hpb : env.DecodePakePayload msg3.Payload with e | pb
  · rw [bind_fst_err _ _ _ e (by simp [Dial, ReadRendevouzMessage, call, emit, ignoreError, WriteJSON, newCrypt, getPayloadSize, World.start, errOf, valOf, readEncryptedMessage_fst, readEncryptedMessage_snd, writeEncryptedMessage_snd, hd, hb, hid, hic, hrd, hpk, hpb])] at hR
    have h1 : returned env inp = some e := by simp [returned, hR, errOf]
    have h2 : events env inp = failAt (canon env { Vals.blank with conn := conn, bindMsg := msg1, id := id, w1 := nextWriteResult inp.writeResults, pake0 := pake0, w2 := nextWriteResult inp.writeResults.tail, peerMsg := msg3 }) 9 e := by
      simp [events, hR, Dial, ReadRendevouzMessage, call, emit, ignoreError, WriteJSON, newCrypt, getPayloadSize, World.start, errOf, valOf, readEncryptedMessage_fst, readEncryptedMessage_snd, writeEncryptedMessage_snd, hd, hb, hid, hic, hrd, hpk, hpb, failAt, canon, withErr, establishMsg, pakeMsg, saltMsg]
    rw [h1, h2]
    exact Shape.failed _ 9 e (by decide) (fun _ => ⟨hd, hb, hid⟩)
      (fun h => absurd h (by decide)) (fun h => absurd h (by decide))
  rw [bind_fst_ok _ _ _ pb (by simp [Dial, ReadRendevouzMessage, call, emit, ignoreError, WriteJSON, newCrypt, getPayloadSize, World.start, errOf, valOf, readEncryptedMessage_fst, readEncryptedMessage_snd, writeEncryptedMessage_snd, hd, hb, hid, hic, hrd, hpk, hpb])] at hR
  rcases hpu : env.PakeUpdate pake0 pb with e | pake1
  · rw [bind_fst_err _ _ _ e (by simp [Dial, ReadRendevouzMessage, call, emit, ignoreError, WriteJSON, newCrypt, getPayloadSize, World.start, errOf, valOf, readEncryptedMessage_fst, readEncryptedMessage_snd, writeEncryptedMessage_snd, hd, hb, hid, hic, hrd, hpk, hpb, hpu])] at hR
    have h1 : returned env inp = some e := by simp [returned, hR, errOf]
    have h2 : events env inp = failAt (canon env { Vals.blank with conn := conn, bindMsg := msg1, id := id, w1 := nextWriteResult inp.writeResults, pake0 := pake0, w2 := nextWriteResult inp.writeResults.tail, peerMsg := msg3, peerBytes := pb }) 10 e := by
      simp [events, hR, Dial, ReadRendevouzMessage, call, emit, ignoreError, WriteJSON, newCrypt, getPayloadSize, World.start, errOf, valOf, readEncryptedMessage_fst, readEncryptedMessage_snd, writeEncryptedMessage_snd, hd, hb, hid, hic, hrd, hpk, hpb, hpu, failAt, canon, withErr, establishMsg, pakeMsg, saltMsg]
    rw [h1, h2]
    exact Shape.failed _ 10 e (by decide) (fun _ => ⟨hd, hb, hid⟩)
      (fun h => absurd h (by decide)) (fun h => absurd h (by decide))
  rw [bind_fst_ok _ _ _ pake1 (by simp [Dial, ReadRendevouzMessage, call, emit, ignoreError, WriteJSON, newCrypt, getPayloadSize, World.start, errOf, valOf, readEncryptedMessage_fst, readEncryptedMessage_snd, writeEncryptedMessage_snd, hd, hb, hid, hic, hrd, hpk, hpb, hpu])] at hR
  rcases hsk : env.SessionKey pake1 with e | key
  · rw [bind_fst_err _ _ _ e (by simp [Dial, ReadRendevouzMessage, call, emit, ignoreError, WriteJSON, newCrypt, getPayloadSize, World.start, errOf, valOf, readEncryptedMessage_fst, readEncryptedMessage_snd, writeEncryptedMessage_snd, hd, hb, hid, hic, hrd, hpk, hpb, hpu, hsk])] at hR
    have h1 : returned env inp = some e := by simp [returned, hR, errOf]
    have h2 : events env inp = failAt (canon env { Vals.blank with conn := conn, bindMsg := msg1, id := id, w1 := nextWriteResult inp.writeResults, pake0 := pake0, w2 := nextWriteResult inp.writeResults.tail, peerMsg := msg3, peerBytes := pb, pake1 := pake1 }) 11 e := by
      simp [events, hR, Dial, ReadRendevouzMessage, call, emit, ignoreError, WriteJSON, newCrypt, getPayloadSize, World.start, errOf, valOf, readEncryptedMessage_fst, readEncryptedMessage_snd, writeEncryptedMessage_snd, hd, hb, hid, hic, hrd, hpk, hpb, hpu, hsk, failAt, canon, withErr, establishMsg, pakeMsg, saltMsg]
    rw [h1, h2]
    exact Shape.failed _ 11 e (by decide) (fun _ => ⟨hd, hb, hid⟩)
      (fun h => absurd h (by decide)) (fun h => absurd h (by decide))
  rw [bind_fst_ok _ _ _ key (by simp [Dial, ReadRendevouzMessage, call, emit, ignoreError, WriteJSON, newCrypt, getPayloadSize, World.start, errOf, valOf, readEncryptedMessage_fst, readEncryptedMessage_snd, writeEncryptedMessage_snd, hd, hb, hid, hic, hrd, hpk, hpb, hpu, hsk])] at hR
  rcases hcn : env.CryptNew key with e | crypt
  · rw [bind_fst_err _ _ _ e (by simp [Dial, ReadRendevouzMessage, call, emit, ignoreError, WriteJSON, newCrypt, getPayloadSize, World.start, errOf, valOf, readEncryptedMessage_fst, readEncryptedMessage_snd, writeEncryptedMessage_snd, hd, hb, hid, hic, hrd, hpk, hpb, hpu, hsk, hcn])] at hR
    have h1 : returned env inp = some e := by simp [returned, hR, errOf]
    have h2 : events env inp = failAt (canon env { Vals.blank with conn := conn, bindMsg := msg1, id := id, w1 := nextWriteResult inp.writeResults, pake0 := pake0, w2 := nextWriteResult inp.writeResults.tail, peerMsg := msg3, peerBytes := pb, pake1 := pake1, key := key }) 12 e := by
      simp [events, hR, Dial, ReadRendevouzMessage, call, emit, ignoreError, WriteJSON, newCrypt, getPayloadSize, World.start, errOf, valOf, readEncryptedMessage_fst, readEncryptedMessage_snd, writeEncryptedMessage_snd, hd, hb, hid, hic, hrd, hpk, hpb, hpu, hsk, hcn, failAt, canon, withErr, establishMsg, pakeMsg, saltMsg]
    rw [h1, h2]
    exact Shape.failed _ 12 e (by decide) (fun _ => ⟨hd, hb, hid⟩)
      (fun h => absurd h (by decide)) (fun h => absurd h (by decide))
  rw [bind_fst_ok _ _ _ crypt (by simp [Dial, ReadRendevouzMessage, call, emit, ignoreError, WriteJSON, newCrypt, getPayloadSize, World.start, errOf, valOf, readEncryptedMessage_fst, readEncryptedMessage_snd, writeEncryptedMessage_snd, hd, hb, hid, hic, hrd, hpk, hpb, hpu, hsk, hcn])] at hR
  rw [bind_fst_ok _ _ _ () (by simp [Dial, ReadRendevouzMessage, call, emit, ignoreError, WriteJSON, newCrypt, getPayloadSize, World.start, errOf, valOf, readEncryptedMessage_fst, readEncryptedMessage_snd, writeEncryptedMessage_snd, hd, hb, hid, hic, hrd, hpk, hpb, hpu, hsk, hcn])] at hR
  rcases hm1 : decodeFrame env crypt inp.framesIn with e | m1
  · rw [bind_fst_err _ _ _ e (by simp [Dial, ReadRendevouzMessage, call, emit, ignoreError, WriteJSON, newCrypt, getPayloadSize, World.start, errOf, valOf, readEncryptedMessage_fst, readEncryptedMessage_snd, writeEncryptedMessage_snd, hd, hb, hid, hic, hrd, hpk, hpb, hpu, hsk, hcn, hm1])] at hR
    have h1 : returned env inp = some e := by simp [returned, hR, errOf]
    have h2 : events env inp = failAt (canon env { Vals.blank with conn := conn, bindMsg := msg1, id := id, w1 := nextWriteResult inp.writeResults, pake0 := pake0, w2 := nextWriteResult inp.writeResults.tail, peerMsg := msg3, peerBytes := pb, pake1 := pake1, key := key, crypt := crypt, w3 := nextWriteResult inp.writeResults.tail.tail }) 14 e := by
      simp [events, hR, Dial, ReadRendevouzMessage, call, emit, ignoreError, WriteJSON, newCrypt, getPayloadSize, World.start, errOf, valOf, readEncryptedMessage_fst, readEncryptedMessage_snd, writeEncryptedMessage_snd, hd, hb, hid, hic, hrd, hpk, hpb, hpu, hsk, hcn, hm1, failAt, canon, withErr, establishMsg, pakeMsg, saltMsg]
    have hsc : sessionCrypt env inp = some crypt := by
      simp [sessionCrypt, hR, Dial, ReadRendevouzMessage, call, emit, ignoreError, WriteJSON, newCrypt, getPayloadSize, World.start, errOf, valOf, readEncryptedMessage_fst, readEncryptedMessage_snd, writeEncryptedMessage_snd, hd, hb, hid, hic, hrd, hpk, hpb, hpu, hsk, hcn, hm1]
    rw [h1, h2]
    exact Shape.failed _ 14 e (by decide) (fun _ => ⟨hd, hb, hid⟩)
      (fun _ => ⟨⟨hd, hb, hid⟩, hic, hpb, hpu, hsk, hcn, hsc⟩) (fun h => absurd h (by decide))
  rw [bind_fst_ok _ _ _ m1 (by simp [Dial, ReadRendevouzMessage, call, emit, ignoreError, WriteJSON, newCrypt, getPayloadSize, World.start, errOf, valOf, readEncryptedMessage_fst, readEncryptedMessage_snd, writeEncryptedMessage_snd, hd, hb, hid, hic, hrd, hpk, hpb, hpu, hsk, hcn, hm1])] at hR
  by_cases hty : m1.type = TransferMessageType.ReceiverHandshake
  swap
  · rw [if_pos hty] at hR
    have h1 : returned env inp = some (Error.wrongMessageType [TransferMessageType.ReceiverHandshake] m1.type) := by
      simp [returned, hR, fail, errOf]
    have h2 : events env inp = (canon env { Vals.blank with conn := conn, bindMsg := msg1, id := id, w1 := nextWriteResult inp.writeResults, pake0 := pake0, w2 := nextWriteResult inp.writeResults.tail, peerMsg := msg3, peerBytes := pb, pake1 := pake1, key := key, crypt := crypt, w3 := nextWriteResult inp.writeResults.tail.tail, m1 := m1 }).take 15 := by
      simp [events, hR, fail, Dial, ReadRendevouzMessage, call, emit, ignoreError, WriteJSON, newCrypt, getPayloadSize, World.start, errOf, valOf, readEncryptedMessage_fst, readEncryptedMessage_snd, writeEncryptedMessage_snd, hd, hb, hid, hic, hrd, hpk, hpb, hpu, hsk, hcn, hm1, canon, establishMsg, pakeMsg, saltMsg]
    have hsc : sessionCrypt env inp = some crypt := by
      simp [sessionCrypt, hR, fail, Dial, ReadRendevouzMessage, call, emit, ignoreError, WriteJSON, newCrypt, getPayloadSize, World.start, errOf, valOf, readEncryptedMessage_fst, readEncryptedMessage_snd, writeEncryptedMessage_snd, hd, hb, hid, hic, hrd, hpk, hpb, hpu, hsk, hcn, hm1]
    rw [h1, h2]
    exact Shape.wrongFirst ({ Vals.blank with conn := conn, bindMsg := msg1, id := id, w1 := nextWriteResult inp.writeResults, pake0 := pake0, w2 := nextWriteResult inp.writeResults.tail, peerMsg := msg3, peerBytes := pb, pake1 := pake1, key := key, crypt := crypt, w3 := nextWriteResult inp.writeResults.tail.tail, m1 := m1 }) ⟨⟨hd, hb, hid⟩, hic, hpb, hpu, hsk, hcn, hsc⟩ hty
  rw [if_neg (not_not.mpr hty)] at hR
  rcases hip : env.DecodeHandshakePayload m1.Payload with e | ip
  · rw [bind_fst_err _ _ _ e (by simp [Dial, ReadRendevouzMessage, call, emit, ignoreError, WriteJSON, newCrypt, getPayloadSize, World.start, errOf, valOf, readEncryptedMessage_fst, readEncryptedMessage_snd, writeEncryptedMessage_snd, hd, hb, hid, hic, hrd, hpk, hpb, hpu, hsk, hcn, hm1, hip])] at hR
    have h1 : returned env inp = some e := by simp [returned, hR, errOf]
    have h2 : events env inp = failAt (canon env { Vals.blank with conn := conn, bindMsg := msg1, id := id, w1 := nextWriteResult inp.writeResults, pake0 := pake0, w2 := nextWriteResult inp.writeResults.tail, peerMsg := msg3, peerBytes := pb, pake1 := pake1, key := key, crypt := crypt, w3 := nextWriteResult inp.writeResults.tail.tail, m1 := m1 }) 15 e := by
      simp [events, hR, Dial, ReadRendevouzMessage, call, emit, ignoreError, WriteJSON, newCrypt, getPayloadSize, World.start, errOf, valOf, readEncryptedMessage_fst, readEncryptedMessage_snd, writeEncryptedMessage_snd, hd, hb, hid, hic, hrd, hpk, hpb, hpu, hsk, hcn, hm1, hip, failAt, canon, withErr, establishMsg, pakeMsg, saltMsg]
    have hsc : sessionCrypt env inp = some crypt := by
      simp [sessionCrypt, hR, Dial, ReadRendevouzMessage, call, emit, ignoreError, WriteJSON, newCrypt, getPayloadSize, World.start, errOf, valOf, readEncryptedMessage_fst, readEncryptedMessage_snd, writeEncryptedMessage_snd, hd, hb, hid, hic, hrd, hpk, hpb, hpu, hsk, hcn, hm1, hip]
    rw [h1, h2]
    exact Shape.failed _ 15 e (by decide) (fun _ => ⟨hd, hb, hid⟩)
      (fun _ => ⟨⟨hd, hb, hid⟩, hic, hpb, hpu, hsk, hcn, hsc⟩) (fun _ => hty)
  rw [bind_fst_ok _ _ _ ip (by simp [Dial, ReadRendevouzMessage, call, emit, ignoreError, WriteJSON, newCrypt, getPayloadSize, World.start, errOf, valOf, readEncryptedMessage_fst, readEncryptedMessage_snd, writeEncryptedMessage_snd, hd, hb, hid, hic, hrd, hpk, hpb, hpu, hsk, hcn, hm1, hip])] at hR
  rcases hgp : env.GetOpenPort with e | port
  · rw [bind_fst_err _ _ _ e (by simp [Dial, ReadRendevouzMessage, call, emit, ignoreError, WriteJSON, newCrypt, getPayloadSize, World.start, errOf, valOf, readEncryptedMessage_fst, readEncryptedMessage_snd, writeEncryptedMessage_snd, hd, hb, hid, hic, hrd, hpk, hpb, hpu, hsk, hcn, hm1, hip, hgp])] at hR
    have h1 : returned env inp = some e := by simp [returned, hR, errOf]
    have h2 : events env inp = failAt (canon env { Vals.blank with conn := conn, bindMsg := msg1, id := id, w1 := nextWriteResult inp.writeResults, pake0 := pake0, w2 := nextWriteResult inp.writeResults.tail, peerMsg := msg3, peerBytes := pb, pake1 := pake1, key := key, crypt := crypt, w3 := nextWriteResult inp.writeResults.tail.tail, m1 := m1, ip := ip }) 16 e := by
      simp [events, hR, Dial, ReadRendevouzMessage, call, emit, ignoreError, WriteJSON, newCrypt, getPayloadSize, World.start, errOf, valOf, readEncryptedMessage_fst, readEncryptedMessage_snd, writeEncryptedMessage_snd, hd, hb, hid, hic, hrd, hpk, hpb, hpu, hsk, hcn, hm1, hip, hgp, failAt, canon, withErr, establishMsg, pakeMsg, saltMsg]
    have hsc : sessionCrypt env inp = some crypt := by
      simp [sessionCrypt, hR, Dial, ReadRendevouzMessage, call, emit, ignoreError, WriteJSON, newCrypt, getPayloadSize, World.start, errOf, valOf, readEncryptedMessage_fst, readEncryptedMessage_snd, writeEncryptedMessage_snd, hd, hb, hid, hic, hrd, hpk, hpb, hpu, hsk, hcn, hm1, hip, hgp]
    rw [h1, h2]
    exact Shape.failed _ 16 e (by decide) (fun _ => ⟨hd, hb, hid⟩)
      (fun _ => ⟨⟨hd, hb, hid⟩, hic, hpb, hpu, hsk, hcn, hsc⟩) (fun _ => hty)
  rw [bind_fst_ok _ _ _ port (by simp [Dial, ReadRendevouzMessage, call, emit, ignoreError, WriteJSON, newCrypt, getPayloadSize, World.start, errOf, valOf, readEncryptedMessage_fst, readEncryptedMessage_snd, writeEncryptedMessage_snd, hd, hb, hid, hic, hrd, hpk, hpb, hpu, hsk, hcn, hm1, hip, hgp])] at hR
  rw [bind_fst_ok _ _ _ () (by simp [Dial, ReadRendevouzMessage, call, emit, ignoreError, WriteJSON, newCrypt, getPayloadSize, World.start, errOf, valOf, readEncryptedMessage_fst, readEncryptedMessage_snd, writeEncryptedMessage_snd, hd, hb, hid, hic, hrd, hpk, hpb, hpu, hsk, hcn, hm1, hip, hgp])] at hR
  rw [bind_fst_ok _ _ _ () (by simp [Dial, ReadRendevouzMessage, call, emit, ignoreError, WriteJSON, newCrypt, getPayloadSize, World.start, errOf, valOf, readEncryptedMessage_fst, readEncryptedMessage_snd, writeEncryptedMessage_snd, hd, hb, hid, hic, hrd, hpk, hpb, hpu, hsk, hcn, hm1, hip, hgp])] at hR
  rw [bind_fst_ok _ _ _ inp.sender.payloadSize (by simp [Dial, ReadRendevouzMessage, call, emit, ignoreError, WriteJSON, newCrypt, getPayloadSize, World.start, errOf, valOf, readEncryptedMessage_fst, readEncryptedMessage_snd, writeEncryptedMessage_snd, hd, hb, hid, hic, hrd, hpk, hpb, hpu, hsk, hcn, hm1, hip, hgp])] at hR
  try simp only [] at hR
  rw [bind_fst_ok _ _ _ () (by simp [Dial, ReadRendevouzMessage, call, emit, ignoreError, WriteJSON, newCrypt, getPayloadSize, World.start, errOf, valOf, readEncryptedMessage_fst, readEncryptedMessage_snd, writeEncryptedMessage_snd, hd, hb, hid, hic, hrd, hpk, hpb, hpu, hsk, hcn, hm1, hip, hgp])] at hR
  rcases hm2 : decodeFrame env crypt inp.framesIn.tail with e | m2
  · rw [bind_fst_err _ _ _ e (by simp [Dial, ReadRendevouzMessage, call, emit, ignoreError, WriteJSON, newCrypt, getPayloadSize, World.start, errOf, valOf, readEncryptedMessage_fst, readEncryptedMessage_snd, writeEncryptedMessage_snd, hd, hb, hid, hic, hrd, hpk, hpb, hpu, hsk, hcn, hm1, hip, hgp, hm2])] at hR
    have h1 : returned env inp = some e := by
      simp [returned, hR, fail, errOf, pure, Exec.pure]
    have hsc : sessionCrypt env inp = some crypt := by
      simp [sessionCrypt, hR, fail, pure, Exec.pure, Dial, ReadRendevouzMessage, call, emit, ignoreError, WriteJSON, newCrypt, getPayloadSize, World.start, errOf, valOf, readEncryptedMessage_fst, readEncryptedMessage_snd, writeEncryptedMessage_snd, hd, hb, hid, hic, hrd, hpk, hpb, hpu, hsk, hcn, hm1, hip, hgp, hm2]
    have h2 := congrArg (fun r => r.2.trace) hR
    simp [fail, pure, Exec.pure, Dial, ReadRendevouzMessage, call, emit, ignoreError, WriteJSON, newCrypt, getPayloadSize, World.start, errOf, valOf, readEncryptedMessage_fst, readEncryptedMessage_snd, writeEncryptedMessage_snd, hd, hb, hid, hic, hrd, hpk, hpb, hpu, hsk, hcn, hm1, hip, hgp, hm2] at h2
    obtain ⟨v, hv⟩ : ∃ v : Vals, v = { Vals.blank with conn := conn, bindMsg := msg1, id := id, w1 := nextWriteResult inp.writeResults, pake0 := pake0, w2 := nextWriteResult inp.writeResults.tail, peerMsg := msg3, peerBytes := pb, pake1 := pake1, key := key, crypt := crypt, w3 := nextWriteResult inp.writeResults.tail.tail, m1 := m1, ip := ip, port := port } := ⟨_, rfl⟩
    have hS : Shaken env inp v := by
      rw [hv]; exact ⟨⟨⟨hd, hb, hid⟩, hic, hpb, hpu, hsk, hcn, hsc⟩, hty, hip, hgp⟩
    obtain ⟨_, h3⟩ : ∃ _u : Unit, events env inp = canon env v ++ sealedFrames env 0 v.crypt (handshakeMsg inp v) (nextWriteResult inp.writeResults.tail.tail.tail) ++ [Event.readEncrypted none (some e)] := by
      refine ⟨(), ?_⟩
      rw [events, h2, hv]
      simp only [canon, handshakeMsg, directAck, relayAck, establishMsg, pakeMsg, saltMsg, List.append_assoc, List.cons_append, List.nil_append, List.singleton_append]
      try rfl
    rw [h1, h3]
    exact Shape.readFailed v (nextWriteResult inp.writeResults.tail.tail.tail) e hS
  rw [bind_fst_ok _ _ _ m2 (by simp [Dial, ReadRendevouzMessage, call, emit, ignoreError, WriteJSON, newCrypt, getPayloadSize, World.start, errOf, valOf, readEncryptedMessage_fst, readEncryptedMessage_snd, writeEncryptedMessage_snd, hd, hb, hid, hic, hrd, hpk, hpb, hpu, hsk, hcn, hm1, hip, hgp, hm2])] at hR
  rcases hty2 : m2.type with _ | _ | _ | _ | _ | _ | c <;> rw [hty2] at hR <;> simp only [] at hR
  · have h1 : returned env inp = some (Error.wrongMessageType [TransferMessageType.ReceiverDirectCommunication, TransferMessageType.ReceiverRelayCommunication] m2.type) := by
      simp [returned, hR, fail, errOf, pure, Exec.pure, hty2]
    have hsc : sessionCrypt env inp = some crypt := by
      simp [sessionCrypt, hR, fail, pure, Exec.pure, Dial, ReadRendevouzMessage, call, emit, ignoreError, WriteJSON, newCrypt, getPayloadSize, World.start, errOf, valOf, readEncryptedMessage_fst, readEncryptedMessage_snd, writeEncryptedMessage_snd, hd, hb, hid, hic, hrd, hpk, hpb, hpu, hsk, hcn, hm1, hip, hgp, hm2]
    have h2 := congrArg (fun r => r.2.trace) hR
    simp [fail, pure, Exec.pure, Dial, ReadRendevouzMessage, call, emit, ignoreError, WriteJSON, newCrypt, getPayloadSize, World.start, errOf, valOf, readEncryptedMessage_fst, readEncryptedMessage_snd, writeEncryptedMessage_snd, hd, hb, hid, hic, hrd, hpk, hpb, hpu, hsk, hcn, hm1, hip, hgp, hm2] at h2
    obtain ⟨v, hv⟩ : ∃ v : Vals, v = { Vals.blank with conn := conn, bindMsg := msg1, id := id, w1 := nextWriteResult inp.writeResults, pake0 := pake0, w2 := nextWriteResult inp.writeResults.tail, peerMsg := msg3, peerBytes := pb, pake1 := pake1, key := key, crypt := crypt, w3 := nextWriteResult inp.writeResults.tail.tail, m1 := m1, ip := ip, port := port } := ⟨_, rfl⟩
    have hS : Shaken env inp v := by
      rw [hv]; exact ⟨⟨⟨hd, hb, hid⟩, hic, hpb, hpu, hsk, hcn, hsc⟩, hty, hip, hgp⟩
    obtain ⟨_, h3⟩ : ∃ _u : Unit, events env inp = canon env v ++ sealedFrames env 0 v.crypt (handshakeMsg inp v) (nextWriteResult inp.writeResults.tail.tail.tail) ++ [Event.readEncrypted (some m2) none] := by
      refine ⟨(), ?_⟩
      rw [events, h2, hv]
      simp only [canon, handshakeMsg, directAck, relayAck, establishMsg, pakeMsg, saltMsg, List.append_assoc, List.cons_append, List.nil_append, List.singleton_append]
      try rfl
    rw [h1, h3]
    exact Shape.wrongSecond v (nextWriteResult inp.writeResults.tail.tail.tail) m2 hS (by rw [hty2]; simp) (by rw [hty2]; simp)
  · have h1 : returned env inp = some (Error.wrongMessageType [TransferMessageType.ReceiverDirectCommunication, TransferMessageType.ReceiverRelayCommunication] m2.type) := by
      simp [returned, hR, fail, errOf, pure, Exec.pure, hty2]
    have hsc : sessionCrypt env inp = some crypt := by
      simp [sessionCrypt, hR, fail, pure, Exec.pure, Dial, ReadRendevouzMessage, call, emit, ignoreError, WriteJSON, newCrypt, getPayloadSize, World.start, errOf, valOf, readEncryptedMessage_fst, readEncryptedMessage_snd, writeEncryptedMessage_snd, hd, hb, hid, hic, hrd, hpk, hpb, hpu, hsk, hcn, hm1, hip, hgp, hm2]
    have h2 := congrArg (fun r => r.2.trace) hR
    simp [fail, pure, Exec.pure, Dial, ReadRendevouzMessage, call, emit, ignoreError, WriteJSON, newCrypt, getPayloadSize, World.start, errOf, valOf, readEncryptedMessage_fst, readEncryptedMessage_snd, writeEncryptedMessage_snd, hd, hb, hid, hic, hrd, hpk, hpb, hpu, hsk, hcn, hm1, hip, hgp, hm2] at h2
    obtain ⟨v, hv⟩ : ∃ v : Vals, v = { Vals.blank with conn := conn, bindMsg := msg1, id := id, w1 := nextWriteResult inp.writeResults, pake0 := pake0, w2 := nextWriteResult inp.writeResults.tail, peerMsg := msg3, peerBytes := pb, pake1 := pake1, key := key, crypt := crypt, w3 := nextWriteResult inp.writeResults.tail.tail, m1 := m1, ip := ip, port := port } := ⟨_, rfl⟩
    have hS : Shaken env inp v := by
      rw [hv]; exact ⟨⟨⟨hd, hb, hid⟩, hic, hpb, hpu, hsk, hcn, hsc⟩, hty, hip, hgp⟩
    obtain ⟨_, h3⟩ : ∃ _u : Unit, events env inp = canon env v ++ sealedFrames env 0 v.crypt (handshakeMsg inp v) (nextWriteResult inp.writeResults.tail.tail.tail) ++ [Event.readEncrypted (some m2) none] := by
      refine ⟨(), ?_⟩
      rw [events, h2, hv]
      simp only [canon, handshakeMsg, directAck, relayAck, establishMsg, pakeMsg, saltMsg, List.append_assoc, List.cons_append, List.nil_append, List.singleton_append]
      try rfl
    rw [h1, h3]
    exact Shape.wrongSecond v (nextWriteResult inp.writeResults.tail.tail.tail) m2 hS (by rw [hty2]; simp) (by rw [hty2]; simp)
  · rw [bind_fst_ok _ _ _ () (by simp [emit])] at hR
    rw [bind_fst_ok _ _ _ () (by simp [ignoreError])] at hR
    have h1 : returned env inp = none := by
      simp [returned, hR, fail, errOf, pure, Exec.pure, hty2]
    have hsc : sessionCrypt env inp = some crypt := by
      simp [sessionCrypt, hR, fail, pure, Exec.pure, Dial, ReadRendevouzMessage, call, emit, ignoreError, WriteJSON, newCrypt, getPayloadSize, World.start, errOf, valOf, readEncryptedMessage_fst, readEncryptedMessage_snd, writeEncryptedMessage_snd, hd, hb, hid, hic, hrd, hpk, hpb, hpu, hsk, hcn, hm1, hip, hgp, hm2]
    have h2 := congrArg (fun r => r.2.trace) hR
    simp [fail, pure, Exec.pure, Dial, ReadRendevouzMessage, call, emit, ignoreError, WriteJSON, newCrypt, getPayloadSize, World.start, errOf, valOf, readEncryptedMessage_fst, readEncryptedMessage_snd, writeEncryptedMessage_snd, hd, hb, hid, hic, hrd, hpk, hpb, hpu, hsk, hcn, hm1, hip, hgp, hm2] at h2
    obtain ⟨v, hv⟩ : ∃ v : Vals, v = { Vals.blank with conn := conn, bindMsg := msg1, id := id, w1 := nextWriteResult inp.writeResults, pake0 := pake0, w2 := nextWriteResult inp.writeResults.tail, peerMsg := msg3, peerBytes := pb, pake1 := pake1, key := key, crypt := crypt, w3 := nextWriteResult inp.writeResults.tail.tail, m1 := m1, ip := ip, port := port } := ⟨_, rfl⟩
    have hS : Shaken env inp v := by
      rw [hv]; exact ⟨⟨⟨hd, hb, hid⟩, hic, hpb, hpu, hsk, hcn, hsc⟩, hty, hip, hgp⟩
    obtain ⟨w5, n, h3⟩ : ∃ w5 n, events env inp = canon env v ++ sealedFrames env 0 v.crypt (handshakeMsg inp v) (nextWriteResult inp.writeResults.tail.tail.tail) ++ [Event.readEncrypted (some m2) none, Event.closeRelay] ++ sealedFrames env n v.crypt directAck w5 := by
      apply Exists.intro
      apply Exists.intro
      rw [events, h2, hv]
      simp only [canon, handshakeMsg, directAck, relayAck, establishMsg, pakeMsg, saltMsg, List.append_assoc, List.cons_append, List.nil_append, List.singleton_append]
      try rfl
    rw [h1, h3]
    exact Shape.direct v (nextWriteResult inp.writeResults.tail.tail.tail) w5 n m2 hS hty2
  · have h1 : returned env inp = some (Error.wrongMessageType [TransferMessageType.ReceiverDirectCommunication, TransferMessageType.ReceiverRelayCommunication] m2.type) := by
      simp [returned, hR, fail, errOf, pure, Exec.pure, hty2]
    have hsc : sessionCrypt env inp = some crypt := by
      simp [sessionCrypt, hR, fail, pure, Exec.pure, Dial, ReadRendevouzMessage, call, emit, ignoreError, WriteJSON, newCrypt, getPayloadSize, World.start, errOf, valOf, readEncryptedMessage_fst, readEncryptedMessage_snd, writeEncryptedMessage_snd, hd, hb, hid, hic, hrd, hpk, hpb, hpu, hsk, hcn, hm1, hip, hgp, hm2]
    have h2 := congrArg (fun r => r.2.trace) hR
    simp [fail, pure, Exec.pure, Dial, ReadRendevouzMessage, call, emit, ignoreError, WriteJSON, newCrypt, getPayloadSize, World.start, errOf, valOf, readEncryptedMessage_fst, readEncryptedMessage_snd, writeEncryptedMessage_snd, hd, hb, hid, hic, hrd, hpk, hpb, hpu, hsk, hcn, hm1, hip, hgp, hm2] at h2
    obtain ⟨v, hv⟩ : ∃ v : Vals, v = { Vals.blank with conn := conn, bindMsg := msg1, id := id, w1 := nextWriteResult inp.writeResults, pake0 := pake0, w2 := nextWriteResult inp.writeResults.tail, peerMsg := msg3, peerBytes := pb, pake1 := pake1, key := key, crypt := crypt, w3 := nextWriteResult inp.writeResults.tail.tail, m1 := m1, ip := ip, port := port } := ⟨_, rfl⟩
    have hS : Shaken env inp v := by
      rw [hv]; exact ⟨⟨⟨hd, hb, hid⟩, hic, hpb, hpu, hsk, hcn, hsc⟩, hty, hip, hgp⟩
    obtain ⟨_, h3⟩ : ∃ _u : Unit, events env inp = canon env v ++ sealedFrames env 0 v.crypt (handshakeMsg inp v) (nextWriteResult inp.writeResults.tail.tail.tail) ++ [Event.readEncrypted (some m2) none] := by
      refine ⟨(), ?_⟩
      rw [events, h2, hv]
      simp only [canon, handshakeMsg, directAck, relayAck, establishMsg, pakeMsg, saltMsg, List.append_assoc, List.cons_append, List.nil_append, List.singleton_append]
      try rfl
    rw [h1, h3]
    exact Shape.wrongSecond v (nextWriteResult inp.writeResults.tail.tail.tail) m2 hS (by rw [hty2]; simp) (by rw [hty2]; simp)
  · rw [bind_fst_ok _ _ _ () (by simp [ignoreError])] at hR
    rw [bind_fst_ok _ _ _ () (by simp [emit])] at hR
    have h1 : returned env inp = none := by
      simp [returned, hR, fail, errOf, pure, Exec.pure, hty2]
    have hsc : sessionCrypt env inp = some crypt := by
      simp [sessionCrypt, hR, fail, pure, Exec.pure, Dial, ReadRendevouzMessage, call, emit, ignoreError, WriteJSON, newCrypt, getPayloadSize, World.start, errOf, valOf, readEncryptedMessage_fst, readEncryptedMessage_snd, writeEncryptedMessage_snd, hd, hb, hid, hic, hrd, hpk, hpb, hpu, hsk, hcn, hm1, hip, hgp, hm2]
    have h2 := congrArg (fun r => r.2.trace) hR
    simp [fail, pure, Exec.pure, Dial, ReadRendevouzMessage, call, emit, ignoreError, WriteJSON, newCrypt, getPayloadSize, World.start, errOf, valOf, readEncryptedMessage_fst, readEncryptedMessage_snd, writeEncryptedMessage_snd, hd, hb, hid, hic, hrd, hpk, hpb, hpu, hsk, hcn, hm1, hip, hgp, hm2] at h2
    obtain ⟨v, hv⟩ : ∃ v : Vals, v = { Vals.blank with conn := conn, bindMsg := msg1, id := id, w1 := nextWriteResult inp.writeResults, pake0 := pake0, w2 := nextWriteResult inp.writeResults.tail, peerMsg := msg3, peerBytes := pb, pake1 := pake1, key := key, crypt := crypt, w3 := nextWriteResult inp.writeResults.tail.tail, m1 := m1, ip := ip, port := port } := ⟨_, rfl⟩
    have hS : Shaken env inp v := by
      rw [hv]; exact ⟨⟨⟨hd, hb, hid⟩, hic, hpb, hpu, hsk, hcn, hsc⟩, hty, hip, hgp⟩
    obtain ⟨w5, n, h3⟩ : ∃ w5 n, events env inp = canon env v ++ sealedFrames env 0 v.crypt (handshakeMsg inp v) (nextWriteResult inp.writeResults.tail.tail.tail) ++ [Event.readEncrypted (some m2) none] ++ sealedFrames env n v.crypt relayAck w5 ++ [Event.sendRelay v.conn] := by
      apply Exists.intro
      apply Exists.intro
      rw [events, h2, hv]
      simp only [canon, handshakeMsg, directAck, relayAck, establishMsg, pakeMsg, saltMsg, List.append_assoc, List.cons_append, List.nil_append, List.singleton_append]
      try rfl
    rw [h1, h3]
    exact Shape.relay v (nextWriteResult inp.writeResults.tail.tail.tail) w5 n m2 hS hty2
  · have h1 : returned env inp = some (Error.wrongMessageType [TransferMessageType.ReceiverDirectCommunication, TransferMessageType.ReceiverRelayCommunication] m2.type) := by
      simp [returned, hR, fail, errOf, pure, Exec.pure, hty2]
    have hsc : sessionCrypt env inp = some crypt := by
      simp [sessionCrypt, hR, fail, pure, Exec.pure, Dial, ReadRendevouzMessage, call, emit, ignoreError, WriteJSON, newCrypt, getPayloadSize, World.start, errOf, valOf, readEncryptedMessage_fst, readEncryptedMessage_snd, writeEncryptedMessage_snd, hd, hb, hid, hic, hrd, hpk, hpb, hpu, hsk, hcn, hm1, hip, hgp, hm2]
    have h2 := congrArg (fun r => r.2.trace) hR
    simp [fail, pure, Exec.pure, Dial, ReadRendevouzMessage, call, emit, ignoreError, WriteJSON, newCrypt, getPayloadSize, World.start, errOf, valOf, readEncryptedMessage_fst, readEncryptedMessage_snd, writeEncryptedMessage_snd, hd, hb, hid, hic, hrd, hpk, hpb, hpu, hsk, hcn, hm1, hip, hgp, hm2] at h2
    obtain ⟨v, hv⟩ : ∃ v : Vals, v = { Vals.blank with conn := conn, bindMsg := msg1, id := id, w1 := nextWriteResult inp.writeResults, pake0 := pake0, w2 := nextWriteResult inp.writeResults.tail, peerMsg := msg3, peerBytes := pb, pake1 := pake1, key := key, crypt := crypt, w3 := nextWriteResult inp.writeResults.tail.tail, m1 := m1, ip := ip, port := port } := ⟨_, rfl⟩
    have hS : Shaken env inp v := by
      rw [hv]; exact ⟨⟨⟨hd, hb, hid⟩, hic, hpb, hpu, hsk, hcn, hsc⟩, hty, hip, hgp⟩
    obtain ⟨_, h3⟩ : ∃ _u : Unit, events env inp = canon env v ++ sealedFrames env 0 v.crypt (handshakeMsg inp v) (nextWriteResult inp.writeResults.tail.tail.tail) ++ [Event.readEncrypted (some m2) none] := by
      refine ⟨(), ?_⟩
      rw [events, h2, hv]
      simp only [canon, handshakeMsg, directAck, relayAck, establishMsg, pakeMsg, saltMsg, List.append_assoc, List.cons_append, List.nil_append, List.singleton_append]
      try rfl
    rw [h1, h3]
    exact Shape.wrongSecond v (nextWriteResult inp.writeResults.tail.tail.tail) m2 hS (by rw [hty2]; simp) (by rw [hty2]; simp)
  · have h1 : returned env inp = some (Error.wrongMessageType [TransferMessageType.ReceiverDirectCommunication, TransferMessageType.ReceiverRelayCommunication] m2.type) := by
      simp [returned, hR, fail, errOf, pure, Exec.pure, hty2]
    have hsc : sessionCrypt env inp = some crypt := by
      simp [sessionCrypt, hR, fail, pure, Exec.pure, Dial, ReadRendevouzMessage, call, emit, ignoreError, WriteJSON, newCrypt, getPayloadSize, World.start, errOf, valOf, readEncryptedMessage_fst, readEncryptedMessage_snd, writeEncryptedMessage_snd, hd, hb, hid, hic, hrd, hpk, hpb, hpu, hsk, hcn, hm1, hip, hgp, hm2]
    have h2 := congrArg (fun r => r.2.trace) hR
    simp [fail, pure, Exec.pure, Dial, ReadRendevouzMessage, call, emit, ignoreError, WriteJSON, newCrypt, getPayloadSize, World.start, errOf, valOf, readEncryptedMessage_fst, readEncryptedMessage_snd, writeEncryptedMessage_snd, hd, hb, hid, hic, hrd, hpk, hpb, hpu, hsk, hcn, hm1, hip, hgp, hm2] at h2
    obtain ⟨v, hv⟩ : ∃ v : Vals, v = { Vals.blank with conn := conn, bindMsg := msg1, id := id, w1 := nextWriteResult inp.writeResults, pake0 := pake0, w2 := nextWriteResult inp.writeResults.tail, peerMsg := msg3, peerBytes := pb, pake1 := pake1, key := key, crypt := crypt, w3 := nextWriteResult inp.writeResults.tail.tail, m1 := m1, ip := ip, port := port } := ⟨_, rfl⟩
    have hS : Shaken env inp v := by
      rw [hv]; exact ⟨⟨⟨hd, hb, hid⟩, hic, hpb, hpu, hsk, hcn, hsc⟩, hty, hip, hgp⟩
    obtain ⟨_, h3⟩ : ∃ _u : Unit, events env inp = canon env v ++ sealedFrames env 0 v.crypt (handshakeMsg inp v) (nextWriteResult inp.writeResults.tail.tail.tail) ++ [Event.readEncrypted (some m2) none] := by
      refine ⟨(), ?_⟩
      rw [events, h2, hv]
      simp only [canon, handshakeMsg, directAck, relayAck, establishMsg, pakeMsg, saltMsg, List.append_assoc, List.cons_append, List.nil_append, List.singleton_append]
      try rfl
    rw [h1, h3]
    exact Shape.wrongSecond v (nextWriteResult inp.writeResults.tail.tail.tail) m2 hS (by rw [hty2]; simp) (by rw [hty2]; simp)
/-! ## Cuts of a list -/

theorem allCuts_iff {α : Type} (l : List α) (Q : List α → α → List α → Prop) :
    AllCuts Q l ↔ ∀ pre x post, l = pre ++ x :: post → Q pre x post := by
  induction l generalizing Q with
  | nil => simp [AllCuts]
  | cons a l ih =>
    simp only [AllCuts, ih]
    constructor
    · rintro ⟨h0, h1⟩ pre x post h
      rcases pre with _ | ⟨b, pre⟩
      · simp at h
        rw [← h.1, ← h.2]
        exact h0
      · simp at h
        rw [← h.1]
        exact h1 pre x post h.2
    · intro h
      exact ⟨h [] a l rfl, fun pre x post hc => h (a :: pre) x post (by simp [hc])⟩

theorem sealedFrames_cases (env : Env) (n : Nat) (crypt : Crypt) (msg : TransferMessage)
    (wr : Option Error) :
    sealedFrames env n crypt msg wr = [] ∨
      ∃ json enc, env.Marshal msg = Except.ok json ∧ env.Encrypt n crypt json = Except.ok enc ∧
        sealedFrames env n crypt msg wr = [Event.writeMessage msg enc wr] := by
  unfold sealedFrames
  rcases hm : env.Marshal msg with e | json
  · simp
  · rcases he : env.Encrypt n crypt json with e | enc
    · simp [he]
    · right
      exact ⟨json, enc, rfl, he, by simp [he]⟩

theorem sealedFrames_why (env : Env) (n : Nat) (crypt : Crypt) (msg : TransferMessage)
    (wr : Option Error) :
    (∃ e, env.Marshal msg = Except.error e ∧ sealedFrames env n crypt msg wr = []) ∨
    (∃ json e, env.Marshal msg = Except.ok json ∧ env.Encrypt n crypt json = Except.error e ∧
        sealedFrames env n crypt msg wr = []) ∨
      ∃ json enc, env.Marshal msg = Except.ok json ∧ env.Encrypt n crypt json = Except.ok enc ∧
        sealedFrames env n crypt msg wr = [Event.writeMessage msg enc wr] := by
  unfold sealedFrames
  rcases hm : env.Marshal msg with e | json
  · simp
  · rcases he : env.Encrypt n crypt json with e | enc
    · simp [he]
    · right
      right
      exact ⟨json, enc, rfl, he, by simp [he]⟩

set_option maxHeartbeats 1600000 in
/-- C1: a transfer message that was decrypted and parsed but has not the type
expected at its step makes `ConnectToRendezvous` return the
`WrongMessageTypeError` of the expected types and the received type, and nothing
happens after the read: at the first encrypted read the expected types are
`[ReceiverHandshake]`, at the second
`[ReceiverDirectCommunication, ReceiverRelayCommunication]`. -/
theorem wrong_message_type_is_fatal (env : Env) (inp : Inputs) (pre post : List Event)
    (msg : TransferMessage)
    (hcut : events env inp = pre ++ Event.readEncrypted (some msg) none :: post) :
    (pre.any Event.isReadEncrypted = false →
        msg.type ≠ TransferMessageType.ReceiverHandshake →
        returned env inp =
            some (Error.wrongMessageType [TransferMessageType.ReceiverHandshake] msg.type) ∧
          post = []) ∧
    (pre.any Event.isReadEncrypted = true →
        msg.type ≠ TransferMessageType.ReceiverDirectCommunication →
        msg.type ≠ TransferMessageType.ReceiverRelayCommunication →
        returned env inp =
            some (Error.wrongMessageType
              [TransferMessageType.ReceiverDirectCommunication,
               TransferMessageType.ReceiverRelayCommunication] msg.type) ∧
          post = []) := by
  have hs := run_shape env inp
  suffices h : AllCuts (fun pre x post =>
      match x with
      | Event.readEncrypted (some msg) none =>
        (pre.any Event.isReadEncrypted = false →
          msg.type ≠ TransferMessageType.ReceiverHandshake →
          returned env inp =
              some (Error.wrongMessageType [TransferMessageType.ReceiverHandshake] msg.type) ∧
            post = []) ∧
        (pre.any Event.isReadEncrypted = true →
          msg.type ≠ TransferMessageType.ReceiverDirectCommunication →
          msg.type ≠ TransferMessageType.ReceiverRelayCommunication →
          returned env inp =
              some (Error.wrongMessageType
                [TransferMessageType.ReceiverDirectCommunication,
                 TransferMessageType.ReceiverRelayCommunication] msg.type) ∧
            post = [])
      | _ => True) (events env inp) from
    (allCuts_iff _ _).1 h pre _ post hcut
  generalize returned env inp = r at hs ⊢
  generalize events env inp = t at hs ⊢
  rcases hs with ⟨v, k, e, hk, -, -, hT⟩ | ⟨v, -, hm⟩ | ⟨v, w4, e, hS⟩ |
    ⟨v, w4, w5, n, m2, hS, hm⟩ | ⟨v, w4, w5, n, m2, hS, hm⟩ | ⟨v, w4, m2, hS, hd, hr⟩
  · simp only [checkedSteps, List.mem_cons, List.mem_singleton, List.not_mem_nil, or_false] at hk
    rcases hk with rfl | rfl | rfl | rfl | rfl | rfl | rfl | rfl | rfl | rfl | rfl | rfl | rfl <;>
      simp [failAt, canon, withErr, AllCuts, Event.isReadEncrypted]
    all_goals exact hT (by decide)
  · simp [canon, AllCuts, Event.isReadEncrypted]
  · rcases sealedFrames_cases env 0 v.crypt (handshakeMsg inp v) w4 with h4 | ⟨j4, e4, -, -, h4⟩ <;>
      simp only [h4, canon, AllCuts, List.cons_append, List.nil_append, List.append_assoc,
        List.singleton_append, true_and, and_true, List.any_cons, List.any_nil,
        Event.isReadEncrypted, Bool.or_false, Bool.false_or, Bool.or_true, Bool.true_or] <;>
      simp [hS.2.1]
  · rcases sealedFrames_cases env 0 v.crypt (handshakeMsg inp v) w4 with h4 | ⟨j4, e4, -, -, h4⟩ <;>
    rcases sealedFrames_cases env n v.crypt directAck w5 with h5 | ⟨j5, e5, -, -, h5⟩ <;>
      simp only [h4, h5, canon, AllCuts, List.cons_append, List.nil_append, List.append_assoc,
        List.singleton_append, true_and, and_true, List.any_cons, List.any_nil,
        Event.isReadEncrypted, Bool.or_false, Bool.false_or, Bool.or_true, Bool.true_or] <;>
      simp [hS.2.1, hm]
  · rcases sealedFrames_cases env 0 v.crypt (handshakeMsg inp v) w4 with h4 | ⟨j4, e4, -, -, h4⟩ <;>
    rcases sealedFrames_cases env n v.crypt relayAck w5 with h5 | ⟨j5, e5, -, -, h5⟩ <;>
      simp only [h4, h5, canon, AllCuts, List.cons_append, List.nil_append, List.append_assoc,
        List.singleton_append, true_and, and_true, List.any_cons, List.any_nil,
        Event.isReadEncrypted, Bool.or_false, Bool.false_or, Bool.or_true, Bool.true_or] <;>
      simp [hS.2.1, hm]
  · rcases sealedFrames_cases env 0 v.crypt (handshakeMsg inp v) w4 with h4 | ⟨j4, e4, -, -, h4⟩ <;>
      simp only [h4, canon, AllCuts, List.cons_append, List.nil_append, List.append_assoc,
        List.singleton_append, true_and, and_true, List.any_cons, List.any_nil,
        Event.isReadEncrypted, Bool.or_false, Bool.false_or, Bool.or_true, Bool.true_or] <;>
      simp [hS.2.1, hd, hr]

theorem wrong_message_type_is_fatal_witness :
    events sampleEnv (sampleInputs [[7]] []) =
        sampleSignaling ++
          Event.readEncrypted
            (some { type := TransferMessageType.unknown 7, Payload := Payload.empty }) none :: [] ∧
      returned sampleEnv (sampleInputs [[7]] []) =
        some (Error.wrongMessageType [TransferMessageType.ReceiverHandshake]
          (TransferMessageType.unknown 7)) :=
  ⟨by rfl,
    ((wrong_message_type_is_fatal sampleEnv (sampleInputs [[7]] []) sampleSignaling []
      { type := TransferMessageType.unknown 7, Payload := Payload.empty } (by rfl)).1
      (by rfl) (by decide)).1⟩

/-- C2, the claim as stated, fails: the receiver chooses the direct connection,
`ConnectToRendezvous` closes the relay channel and returns `nil`, but the
encryption of `SenderDirectAck` fails and no reply is written. -/
theorem direct_ack_missing_when_encrypt_fails :
    events encryptOnceEnv (sampleInputs [[0], [2]] []) =
        sampleSignaling ++
          [ Event.readEncrypted
              (some { type := TransferMessageType.ReceiverHandshake, Payload := Payload.raw [0] })
              none,
            Event.decodePayload none,
            Event.getOpenPort none,
            Event.payloadReady,
            Event.startServer { port := 4242, receiverIP := [10, 0, 0, 2] },
            Event.writeMessage
              { type := TransferMessageType.SenderHandshake,
                Payload := Payload.SenderHandshakePayload [10, 0, 0, 1] 4242 1000 } [0, 1] none,
            Event.readEncrypted
              (some { type := TransferMessageType.ReceiverDirectCommunication,
                      Payload := Payload.empty }) none,
            Event.closeRelay ] ∧
      returned encryptOnceEnv (sampleInputs [[0], [2]] []) = none := by
  constructor <;> rfl

set_option maxHeartbeats 1600000 in
/-- C2, amended: in the final step, when the received message is
`ReceiverDirectCommunication` and `SenderDirectAck` can be marshalled and
encrypted, the sender closes the relay channel, writes the encrypted
`SenderDirectAck`, never sends on the relay channel and returns `nil`; when it is
`ReceiverRelayCommunication` and `SenderRelayAck` can be marshalled and
encrypted, the sender writes the encrypted `SenderRelayAck`, then sends the
dialled connection on the relay channel, once, never closes the channel and
returns `nil`. -/
theorem final_step_follows_receiver_choice (env : Env) (inp : Inputs)
    (pre post : List Event) (m2 : TransferMessage) (crypt : Crypt) (json : Bytes)
    (hcut : events env inp = pre ++ Event.readEncrypted (some m2) none :: post)
    (hfinal : pre.any Event.isReadEncrypted = true)
    (hcrypt : sessionCrypt env inp = some crypt) :
    (m2.type = TransferMessageType.ReceiverDirectCommunication →
      env.Marshal directAck = Except.ok json →
      (∀ n, ∃ enc, env.Encrypt n crypt json = Except.ok enc) →
      returned env inp = none ∧
        (∃ n enc wr, env.Encrypt n crypt json = Except.ok enc ∧
          post = [Event.closeRelay, Event.writeMessage directAck enc wr]) ∧
        pre.any Event.isSendRelay = false) ∧
    (m2.type = TransferMessageType.ReceiverRelayCommunication →
      env.Marshal relayAck = Except.ok json →
      (∀ n, ∃ enc, env.Encrypt n crypt json = Except.ok enc) →
      returned env inp = none ∧
        (∃ n enc wr conn, env.Dial = Except.ok conn ∧
          env.Encrypt n crypt json = Except.ok enc ∧
          post = [Event.writeMessage relayAck enc wr, Event.sendRelay conn]) ∧
        pre.any Event.isSendRelay = false ∧ pre.any Event.isCloseRelay = false) := by
  have hs := run_shape env inp
  suffices h : AllCuts (fun pre x post =>
      match x with
      | Event.readEncrypted (some m2) none =>
        pre.any Event.isReadEncrypted = true →
        (m2.type = TransferMessageType.ReceiverDirectCommunication →
          env.Marshal directAck = Except.ok json →
          (∀ n, ∃ enc, env.Encrypt n crypt json = Except.ok enc) →
          returned env inp = none ∧
            (∃ n enc wr, env.Encrypt n crypt json = Except.ok enc ∧
              post = [Event.closeRelay, Event.writeMessage directAck enc wr]) ∧
            pre.any Event.isSendRelay = false) ∧
        (m2.type = TransferMessageType.ReceiverRelayCommunication →
          env.Marshal relayAck = Except.ok json →
          (∀ n, ∃ enc, env.Encrypt n crypt json = Except.ok enc) →
          returned env inp = none ∧
            (∃ n enc wr conn, env.Dial = Except.ok conn ∧
              env.Encrypt n crypt json = Except.ok enc ∧
              post = [Event.writeMessage relayAck enc wr, Event.sendRelay conn]) ∧
            pre.any Event.isSendRelay = false ∧ pre.any Event.isCloseRelay = false)
      | _ => True) (events env inp) from
    (allCuts_iff _ _).1 h pre _ post hcut hfinal
  generalize returned env inp = r at hs ⊢
  generalize events env inp = t at hs ⊢
  rcases hs with ⟨v, k, e, hk, -, -, hT⟩ | ⟨v, -, hm⟩ | ⟨v, w4, e, hS⟩ |
    ⟨v, w4, w5, n, m2, hS, hm⟩ | ⟨v, w4, w5, n, m2, hS, hm⟩ | ⟨v, w4, m2, hS, hd, hr⟩
  · simp only [checkedSteps, List.mem_cons, List.mem_singleton, List.not_mem_nil, or_false] at hk
    rcases hk with rfl | rfl | rfl | rfl | rfl | rfl | rfl | rfl | rfl | rfl | rfl | rfl | rfl <;>
      simp [failAt, canon, withErr, AllCuts, Event.isReadEncrypted]
  · simp [canon, AllCuts, Event.isReadEncrypted]
  · rcases sealedFrames_cases env 0 v.crypt (handshakeMsg inp v) w4 with h4 | ⟨j4, e4, -, -, h4⟩ <;>
      simp only [h4, canon, AllCuts, List.cons_append, List.nil_append, List.append_assoc,
        List.singleton_append, true_and, and_true, List.any_cons, List.any_nil,
        Event.isReadEncrypted, Bool.or_false, Bool.false_or, Bool.or_true, Bool.true_or] <;>
      simp
  · have hc : crypt = v.crypt := by
      have := hS.1.2.2.2.2.2.2
      rw [hcrypt] at this
      exact Option.some.inj this
    subst hc
    rcases sealedFrames_cases env 0 v.crypt (handshakeMsg inp v) w4 with h4 | ⟨j4, e4, -, -, h4⟩ <;>
    rcases sealedFrames_why env n v.crypt directAck w5 with
      ⟨e5, hM5, h5⟩ | ⟨j5, e5, hM5, hE5, h5⟩ | ⟨j5, e5, hM5, hE5, h5⟩ <;>
      simp only [h4, h5, canon, AllCuts, List.cons_append, List.nil_append, List.append_assoc,
        List.singleton_append, true_and, and_true, List.any_cons, List.any_nil,
        Event.isReadEncrypted, Bool.or_false, Bool.false_or, Bool.or_true, Bool.true_or,
        Event.isSendRelay, Event.isCloseRelay, hm]
    all_goals
      refine ⟨by simp, fun _ => ⟨fun _ hM hE => ?_, by simp⟩⟩
    all_goals
      rw [hM5] at hM
      cases hM
    all_goals first
      | (obtain ⟨enc, henc⟩ := hE n
         rw [hE5] at henc
         cases henc
         done)
      | exact ⟨n, e5, w5, hE5, by simp⟩
  · have hc : crypt = v.crypt := by
      have := hS.1.2.2.2.2.2.2
      rw [hcrypt] at this
      exact Option.some.inj this
    subst hc
    rcases sealedFrames_cases env 0 v.crypt (handshakeMsg inp v) w4 with h4 | ⟨j4, e4, -, -, h4⟩ <;>
    rcases sealedFrames_why env n v.crypt relayAck w5 with
      ⟨e5, hM5, h5⟩ | ⟨j5, e5, hM5, hE5, h5⟩ | ⟨j5, e5, hM5, hE5, h5⟩ <;>
      simp only [h4, h5, canon, AllCuts, List.cons_append, List.nil_append, List.append_assoc,
        List.singleton_append, true_and, and_true, List.any_cons, List.any_nil,
        Event.isReadEncrypted, Bool.or_false, Bool.false_or, Bool.or_true, Bool.true_or,
        Event.isSendRelay, Event.isCloseRelay, hm]
    all_goals
      refine ⟨by simp, fun _ => ⟨by simp, fun _ hM hE => ?_⟩⟩
    all_goals
      rw [hM5] at hM
      cases hM
    all_goals first
      | (obtain ⟨enc, henc⟩ := hE n
         rw [hE5] at henc
         cases henc
         done)
      | exact ⟨n, e5, w5, v.conn, hS.1.1.1, hE5, by simp⟩
  · rcases sealedFrames_cases env 0 v.crypt (handshakeMsg inp v) w4 with h4 | ⟨j4, e4, -, -, h4⟩ <;>
      simp only [h4, canon, AllCuts, List.cons_append, List.nil_append, List.append_assoc,
        List.singleton_append, true_and, and_true, List.any_cons, List.any_nil,
        Event.isReadEncrypted, Bool.or_false, Bool.false_or, Bool.or_true, Bool.true_or] <;>
      simp [hd, hr]

theorem final_step_follows_receiver_choice_witness :
    events sampleEnv (sampleInputs [[0], [2]] []) =
        (sampleSignaling ++ sampleHandshake) ++
          Event.readEncrypted
            (some { type := TransferMessageType.ReceiverDirectCommunication,
                    Payload := Payload.empty }) none ::
          [Event.closeRelay, Event.writeMessage directAck [1, 3] none] ∧
      returned sampleEnv (sampleInputs [[0], [2]] []) = none :=
  ⟨by rfl,
    ((final_step_follows_receiver_choice sampleEnv (sampleInputs [[0], [2]] [])
      (sampleSignaling ++ sampleHandshake)
      [Event.closeRelay, Event.writeMessage directAck [1, 3] none]
      { type := TransferMessageType.ReceiverDirectCommunication, Payload := Payload.empty }
      { key := [0, 1, 2], Salt := [9] } [3] (by rfl) (by rfl) (by rfl)).1
      (by rfl) (by rfl) (fun n => ⟨n :: [3], rfl⟩)).1⟩

set_option maxHeartbeats 3200000 in
/-- C3: at every event `x` of a run, (1) a transfer message is read or written
only after `crypt.New` has returned successfully; (2) after the Salt message every
write on the signaling transport is a binary frame whose bytes are the session
Crypt Context's `Encrypt` of the JSON encoding of a transfer message; (3) a
plaintext message written after the session key exists is the Salt message, and
no other plaintext message follows it. -/
theorem crypt_context_guards_transfer (env : Env) (inp : Inputs) (pre post : List Event)
    (x : Event) (hcut : events env inp = pre ++ x :: post) :
    ((x.isReadEncrypted = true ∨ x.isWriteMessage = true) →
      pre.any Event.isCryptNewOk = true) ∧
    (∀ m e, x = Event.writeJSON m e →
      (m.type = RendezvousMessageType.SenderToRendezvousSalt →
        ∀ y ∈ post, SealedWrite env inp y) ∧
      (pre.any Event.isSessionKeyOk = true →
        m.type = RendezvousMessageType.SenderToRendezvousSalt ∧
          post.any Event.isWriteJSON = false)) := by
  have hs := run_shape env inp
  suffices h : AllCuts (fun pre x post =>
      match x with
      | Event.readEncrypted _ _ => pre.any Event.isCryptNewOk = true
      | Event.writeMessage _ _ _ => pre.any Event.isCryptNewOk = true
      | Event.writeJSON m _ =>
        (m.type = RendezvousMessageType.SenderToRendezvousSalt →
          ∀ y ∈ post, SealedWrite env inp y) ∧
        (pre.any Event.isSessionKeyOk = true →
          m.type = RendezvousMessageType.SenderToRendezvousSalt ∧
            post.any Event.isWriteJSON = false)
      | _ => True) (events env inp) by
    have key := (allCuts_iff _ _).1 h pre x post hcut
    refine ⟨fun hx => ?_, fun m e hxe => ?_⟩
    · cases x <;> simp [Event.isReadEncrypted, Event.isWriteMessage] at hx <;> exact key
    · subst hxe
      exact key
  generalize returned env inp = r at hs ⊢
  generalize events env inp = t at hs ⊢
  rcases hs with ⟨v, k, e, hk, -, -, hT⟩ | ⟨v, -, hm⟩ | ⟨v, w4, e, hS⟩ |
    ⟨v, w4, w5, n, m2, hS, hm⟩ | ⟨v, w4, w5, n, m2, hS, hm⟩ | ⟨v, w4, m2, hS, hd, hr⟩
  · simp only [checkedSteps, List.mem_cons, List.mem_singleton, List.not_mem_nil, or_false] at hk
    rcases hk with rfl | rfl | rfl | rfl | rfl | rfl | rfl | rfl | rfl | rfl | rfl | rfl | rfl <;>
      simp [failAt, canon, withErr, AllCuts, Event.isCryptNewOk, Event.isSessionKeyOk,
        Event.isWriteJSON, SealedWrite, establishMsg, pakeMsg, saltMsg]
  · simp [canon, AllCuts, Event.isCryptNewOk, Event.isSessionKeyOk,
      Event.isWriteJSON, SealedWrite, establishMsg, pakeMsg, saltMsg]
  · have hsc := hS.1.2.2.2.2.2.2
    rcases sealedFrames_cases env 0 v.crypt (handshakeMsg inp v) w4 with
      h4 | ⟨j4, e4, hM4, hE4, h4⟩ <;>
      simp only [h4, canon, AllCuts, List.cons_append, List.nil_append, List.append_assoc,
        List.singleton_append, true_and, and_true, List.any_cons, List.any_nil,
        Event.isCryptNewOk, Event.isSessionKeyOk, Event.isWriteJSON, Bool.or_false,
        Bool.false_or, Bool.or_true, Bool.true_or, establishMsg, pakeMsg, saltMsg] <;>
      simp [SealedWrite, hsc, Event.isWriteJSON]
    all_goals exact ⟨0, j4, hM4, hE4⟩
  · have hsc := hS.1.2.2.2.2.2.2
    rcases sealedFrames_cases env 0 v.crypt (handshakeMsg inp v) w4 with
      h4 | ⟨j4, e4, hM4, hE4, h4⟩ <;>
    rcases sealedFrames_cases env n v.crypt directAck w5 with
      h5 | ⟨j5, e5, hM5, hE5, h5⟩ <;>
      simp only [h4, h5, canon, AllCuts, List.cons_append, List.nil_append, List.append_assoc,
        List.singleton_append, true_and, and_true, List.any_cons, List.any_nil,
        Event.isCryptNewOk, Event.isSessionKeyOk, Event.isWriteJSON, Bool.or_false,
        Bool.false_or, Bool.or_true, Bool.true_or, establishMsg, pakeMsg, saltMsg] <;>
      simp [SealedWrite, hsc, Event.isWriteJSON]
    all_goals first
      | exact ⟨0, j4, hM4, hE4⟩
      | exact ⟨n, j5, hM5, hE5⟩
      | exact ⟨⟨0, j4, hM4, hE4⟩, ⟨n, j5, hM5, hE5⟩⟩
  · have hsc := hS.1.2.2.2.2.2.2
    rcases sealedFrames_cases env 0 v.crypt (handshakeMsg inp v) w4 with
      h4 | ⟨j4, e4, hM4, hE4, h4⟩ <;>
    rcases sealedFrames_cases env n v.crypt relayAck w5 with
      h5 | ⟨j5, e5, hM5, hE5, h5⟩ <;>
      simp only [h4, h5, canon, AllCuts, List.cons_append, List.nil_append, List.append_assoc,
        List.singleton_append, true_and, and_true, List.any_cons, List.any_nil,
        Event.isCryptNewOk, Event.isSessionKeyOk, Event.isWriteJSON, Bool.or_false,
        Bool.false_or, Bool.or_true, Bool.true_or, establishMsg, pakeMsg, saltMsg] <;>
      simp [SealedWrite, hsc, Event.isWriteJSON]
    all_goals first
      | exact ⟨0, j4, hM4, hE4⟩
      | exact ⟨n, j5, hM5, hE5⟩
      | exact ⟨⟨0, j4, hM4, hE4⟩, ⟨n, j5, hM5, hE5⟩⟩
  · have hsc := hS.1.2.2.2.2.2.2
    rcases sealedFrames_cases env 0 v.crypt (handshakeMsg inp v) w4 with
      h4 | ⟨j4, e4, hM4, hE4, h4⟩ <;>
      simp only [h4, canon, AllCuts, List.cons_append, List.nil_append, List.append_assoc,
        List.singleton_append, true_and, and_true, List.any_cons, List.any_nil,
        Event.isCryptNewOk, Event.isSessionKeyOk, Event.isWriteJSON, Bool.or_false,
        Bool.false_or, Bool.or_true, Bool.true_or, establishMsg, pakeMsg, saltMsg] <;>
      simp [SealedWrite, hsc, Event.isWriteJSON]
    all_goals exact ⟨0, j4, hM4, hE4⟩

theorem crypt_context_guards_transfer_witness :
    events sampleEnv (sampleInputs [[0], [2]] []) =
        sampleSignaling.take 13 ++
          Event.writeJSON { type := RendezvousMessageType.SenderToRendezvousSalt,
                            Payload := Payload.SaltPayload [9] } none ::
          (sampleHandshake ++ sampleDirect) ∧
      ∀ y ∈ sampleHandshake ++ sampleDirect,
        SealedWrite sampleEnv (sampleInputs [[0], [2]] []) y :=
  ⟨by rfl,
    ((crypt_context_guards_transfer sampleEnv (sampleInputs [[0], [2]] [])
      (sampleSignaling.take 13) (sampleHandshake ++ sampleDirect)
      (Event.writeJSON { type := RendezvousMessageType.SenderToRendezvousSalt,
                         Payload := Payload.SaltPayload [9] } none) (by rfl)).2 _ _ rfl).1 rfl⟩

set_option maxHeartbeats 3200000 in
/-- C4: the plaintext messages the sender writes form a prefix of
`[Establish, PAKE, Salt]`; at every event `x` of a run, Establish is written only
after Bind was read and a payload decoded, PAKE only after Ready was read, Salt
only after the peer's PAKE message was read and `pake.Update`, `pake.SessionKey`
and `crypt.New` succeeded; and a checked call that returns an error is the last
event of the run, its error being the one `ConnectToRendezvous` returns. -/
theorem plaintext_messages_in_order (env : Env) (inp : Inputs) (pre post : List Event)
    (x : Event) (hcut : events env inp = pre ++ x :: post) :
    plainWrites (events env inp) <+:
        [RendezvousMessageType.SenderToRendezvousEstablish,
         RendezvousMessageType.SenderToRendezvousPAKE,
         RendezvousMessageType.SenderToRendezvousSalt] ∧
    (∀ m e, x = Event.writeJSON m e →
      (m.type = RendezvousMessageType.SenderToRendezvousEstablish →
        Event.readRendezvous RendezvousMessageType.RendezvousToSenderBind none ∈ pre ∧
          Event.decodePayload none ∈ pre) ∧
      (m.type = RendezvousMessageType.SenderToRendezvousPAKE →
        Event.readRendezvous RendezvousMessageType.RendezvousToSenderReady none ∈ pre) ∧
      (m.type = RendezvousMessageType.SenderToRendezvousSalt →
        Event.readRendezvous RendezvousMessageType.RendezvousToSenderPAKE none ∈ pre ∧
          Event.pakeUpdate none ∈ pre ∧ Event.pakeSessionKey none ∈ pre ∧
          Event.cryptNew none ∈ pre)) ∧
    (∀ e, x.failure = some e → returned env inp = some e ∧ post = []) := by
  have hs := run_shape env inp
  suffices h : plainWrites (events env inp) <+:
        [RendezvousMessageType.SenderToRendezvousEstablish,
         RendezvousMessageType.SenderToRendezvousPAKE,
         RendezvousMessageType.SenderToRendezvousSalt] ∧
      AllCuts (fun pre x post =>
      (match x with
      | Event.writeJSON m _ =>
        (m.type = RendezvousMessageType.SenderToRendezvousEstablish →
          Event.readRendezvous RendezvousMessageType.RendezvousToSenderBind none ∈ pre ∧
            Event.decodePayload none ∈ pre) ∧
        (m.type = RendezvousMessageType.SenderToRendezvousPAKE →
          Event.readRendezvous RendezvousMessageType.RendezvousToSenderReady none ∈ pre) ∧
        (m.type = RendezvousMessageType.SenderToRendezvousSalt →
          Event.readRendezvous RendezvousMessageType.RendezvousToSenderPAKE none ∈ pre ∧
            Event.pakeUpdate none ∈ pre ∧ Event.pakeSessionKey none ∈ pre ∧
            Event.cryptNew none ∈ pre)
      | _ => True) ∧
      (∀ e, x.failure = some e → returned env inp = some e ∧ post = [])) (events env inp) by
    have key := (allCuts_iff _ _).1 h.2 pre x post hcut
    refine ⟨h.1, fun m e hxe => ?_, key.2⟩
    subst hxe
    exact key.1
  generalize returned env inp = r at hs ⊢
  generalize events env inp = t at hs ⊢
  rcases hs with ⟨v, k, e, hk, -, -, hT⟩ | ⟨v, -, hm⟩ | ⟨v, w4, e, hS⟩ |
    ⟨v, w4, w5, n, m2, hS, hm⟩ | ⟨v, w4, w5, n, m2, hS, hm⟩ | ⟨v, w4, m2, hS, hd, hr⟩
  · simp only [checkedSteps, List.mem_cons, List.mem_singleton, List.not_mem_nil, or_false] at hk
    rcases hk with rfl | rfl | rfl | rfl | rfl | rfl | rfl | rfl | rfl | rfl | rfl | rfl | rfl <;>
      simp [failAt, canon, withErr, AllCuts, plainWrites, Event.failure, establishMsg, pakeMsg,
        saltMsg]
  · simp [canon, AllCuts, plainWrites, Event.failure, establishMsg, pakeMsg, saltMsg]
  · rcases sealedFrames_cases env 0 v.crypt (handshakeMsg inp v) w4 with
      h4 | ⟨j4, e4, -, -, h4⟩ <;>
      simp [h4, canon, AllCuts, plainWrites, Event.failure, establishMsg, pakeMsg, saltMsg]
  · rcases sealedFrames_cases env 0 v.crypt (handshakeMsg inp v) w4 with
      h4 | ⟨j4, e4, -, -, h4⟩ <;>
    rcases sealedFrames_cases env n v.crypt directAck w5 with
      h5 | ⟨j5, e5, -, -, h5⟩ <;>
      simp [h4, h5, canon, AllCuts, plainWrites, Event.failure, establishMsg, pakeMsg, saltMsg]
  · rcases sealedFrames_cases env 0 v.crypt (handshakeMsg inp v) w4 with
      h4 | ⟨j4, e4, -, -, h4⟩ <;>
    rcases sealedFrames_cases env n v.crypt relayAck w5 with
      h5 | ⟨j5, e5, -, -, h5⟩ <;>
      simp [h4, h5, canon, AllCuts, plainWrites, Event.failure, establishMsg, pakeMsg, saltMsg]
  · rcases sealedFrames_cases env 0 v.crypt (handshakeMsg inp v) w4 with
      h4 | ⟨j4, e4, -, -, h4⟩ <;>
      simp [h4, canon, AllCuts, plainWrites, Event.failure, establishMsg, pakeMsg, saltMsg]

theorem plaintext_messages_in_order_witness :
    events sampleEnv (sampleInputs [[0], [2]] []) =
        sampleSignaling.take 13 ++
          Event.writeJSON { type := RendezvousMessageType.SenderToRendezvousSalt,
                            Payload := Payload.SaltPayload [9] } none ::
          (sampleHandshake ++ sampleDirect) ∧
      plainWrites (events sampleEnv (sampleInputs [[0], [2]] [])) <+:
        [RendezvousMessageType.SenderToRendezvousEstablish,
         RendezvousMessageType.SenderToRendezvousPAKE,
         RendezvousMessageType.SenderToRendezvousSalt] :=
  ⟨by rfl,
    (plaintext_messages_in_order sampleEnv (sampleInputs [[0], [2]] [])
      (sampleSignaling.take 13) (sampleHandshake ++ sampleDirect)
      (Event.writeJSON { type := RendezvousMessageType.SenderToRendezvousSalt,
                         Payload := Payload.SaltPayload [9] } none) (by rfl)).1⟩

set_option maxHeartbeats 3200000 in
/-- C5: at every event `x` of a run, the server options are emitted only after
the payload-ready signal was received, and the `SenderHandshake` is written only
after the server options were emitted (and so after the payload-ready signal). -/
theorem handshake_waits_for_payload (env : Env) (inp : Inputs) (pre post : List Event)
    (x : Event) (hcut : events env inp = pre ++ x :: post) :
    (x.isStartServer = true → Event.payloadReady ∈ pre) ∧
    (∀ msg data wr, x = Event.writeMessage msg data wr →
      msg.type = TransferMessageType.SenderHandshake →
      pre.any Event.isStartServer = true ∧ Event.payloadReady ∈ pre) := by
  have hs := run_shape env inp
  suffices h : AllCuts (fun pre x post =>
      match x with
      | Event.startServer _ => Event.payloadReady ∈ pre
      | Event.writeMessage msg _ _ =>
        msg.type = TransferMessageType.SenderHandshake →
        pre.any Event.isStartServer = true ∧ Event.payloadReady ∈ pre
      | _ => True) (events env inp) by
    have key := (allCuts_iff _ _).1 h pre x post hcut
    refine ⟨fun hx => ?_, fun msg data wr hxe => ?_⟩
    · cases x <;> simp [Event.isStartServer] at hx <;> exact key
    · subst hxe
      exact key
  generalize returned env inp = r at hs ⊢
  generalize events env inp = t at hs ⊢
  rcases hs with ⟨v, k, e, hk, -, -, hT⟩ | ⟨v, -, hm⟩ | ⟨v, w4, e, hS⟩ |
    ⟨v, w4, w5, n, m2, hS, hm⟩ | ⟨v, w4, w5, n, m2, hS, hm⟩ | ⟨v, w4, m2, hS, hd, hr⟩
  · simp only [checkedSteps, List.mem_cons, List.mem_singleton, List.not_mem_nil, or_false] at hk
    rcases hk with rfl | rfl | rfl | rfl | rfl | rfl | rfl | rfl | rfl | rfl | rfl | rfl | rfl <;>
      simp [failAt, canon, withErr, AllCuts, Event.isStartServer]
  · simp [canon, AllCuts, Event.isStartServer]
  · rcases sealedFrames_cases env 0 v.crypt (handshakeMsg inp v) w4 with
      h4 | ⟨j4, e4, -, -, h4⟩ <;>
      simp [h4, canon, AllCuts, Event.isStartServer]
  · rcases sealedFrames_cases env 0 v.crypt (handshakeMsg inp v) w4 with
      h4 | ⟨j4, e4, -, -, h4⟩ <;>
    rcases sealedFrames_cases env n v.crypt directAck w5 with
      h5 | ⟨j5, e5, -, -, h5⟩ <;>
      simp [h4, h5, canon, AllCuts, Event.isStartServer]
  · rcases sealedFrames_cases env 0 v.crypt (handshakeMsg inp v) w4 with
      h4 | ⟨j4, e4, -, -, h4⟩ <;>
    rcases sealedFrames_cases env n v.crypt relayAck w5 with
      h5 | ⟨j5, e5, -, -, h5⟩ <;>
      simp [h4, h5, canon, AllCuts, Event.isStartServer]
  · rcases sealedFrames_cases env 0 v.crypt (handshakeMsg inp v) w4 with
      h4 | ⟨j4, e4, -, -, h4⟩ <;>
      simp [h4, canon, AllCuts, Event.isStartServer]

theorem handshake_waits_for_payload_witness :
    events sampleEnv (sampleInputs [[0], [2]] []) =
        (sampleSignaling ++ sampleHandshake.take 5) ++
          Event.writeMessage
            { type := TransferMessageType.SenderHandshake,
              Payload := Payload.SenderHandshakePayload [10, 0, 0, 1] 4242 1000 } [0, 1] none ::
          sampleDirect ∧
      Event.payloadReady ∈ sampleSignaling ++ sampleHandshake.take 5 :=
  ⟨by rfl,
    ((handshake_waits_for_payload sampleEnv (sampleInputs [[0], [2]] [])
      (sampleSignaling ++ sampleHandshake.take 5) sampleDirect
      (Event.writeMessage
        { type := TransferMessageType.SenderHandshake,
          Payload := Payload.SenderHandshakePayload [10, 0, 0, 1] 4242 1000 } [0, 1] none)
      (by rfl)).2 _ _ _ rfl rfl).2⟩

set_option maxHeartbeats 3200000 in
/-- C6: in a run that writes the `SenderHandshake`, the port of its payload is the
value `GetOpenPort` returned and is the port of the server options emitted, the
options emitted are those only, their receiver IP is the IP decoded from the
payload of the `ReceiverHandshake` received, and the payload size is the
sender's `payloadSize`; the IP of the payload is the local IP of the connection. -/
theorem handshake_matches_server_options (env : Env) (inp : Inputs) (msg : TransferMessage)
    (data : Bytes) (wr : Option Error)
    (hw : Event.writeMessage msg data wr ∈ events env inp)
    (ht : msg.type = TransferMessageType.SenderHandshake) :
    ∃ port ip m1 conn,
      env.GetOpenPort = Except.ok port ∧
      env.Dial = Except.ok conn ∧
      msg.Payload = Payload.SenderHandshakePayload conn.localIP port inp.sender.payloadSize ∧
      Event.startServer { port := port, receiverIP := ip } ∈ events env inp ∧
      (∀ opts, Event.startServer opts ∈ events env inp →
        opts = { port := port, receiverIP := ip }) ∧
      Event.readEncrypted (some m1) none ∈ events env inp ∧
      m1.type = TransferMessageType.ReceiverHandshake ∧
      env.DecodeHandshakePayload m1.Payload = Except.ok ip := by
  have hs := run_shape env inp
  generalize returned env inp = r at hs
  generalize events env inp = t at hs hw ⊢
  rcases hs with ⟨v, k, e, hk, -, -, hT⟩ | ⟨v, -, hm⟩ | ⟨v, w4, e, hS⟩ |
    ⟨v, w4, w5, n, m2, hS, hm⟩ | ⟨v, w4, w5, n, m2, hS, hm⟩ | ⟨v, w4, m2, hS, hd, hr⟩
  · simp only [checkedSteps, List.mem_cons, List.mem_singleton, List.not_mem_nil, or_false] at hk
    rcases hk with rfl | rfl | rfl | rfl | rfl | rfl | rfl | rfl | rfl | rfl | rfl | rfl | rfl <;>
      simp [failAt, canon, withErr] at hw
  · simp [canon] at hw
  · rcases sealedFrames_cases env 0 v.crypt (handshakeMsg inp v) w4 with
      h4 | ⟨j4, e4, -, -, h4⟩
    · simp [h4, canon] at hw
    · have hmsg : msg = handshakeMsg inp v := by
        simp [h4, canon] at hw
        exact hw.1
      subst hmsg
      refine ⟨v.port, v.ip, v.m1, v.conn, hS.2.2.2, hS.1.1.1, rfl, ?_, ?_, ?_, hS.2.1, hS.2.2.1⟩ <;>
        simp [h4, canon]
  · rcases sealedFrames_cases env 0 v.crypt (handshakeMsg inp v) w4 with
      h4 | ⟨j4, e4, -, -, h4⟩ <;>
    rcases sealedFrames_cases env n v.crypt directAck w5 with
      h5 | ⟨j5, e5, -, -, h5⟩
    · simp [h4, h5, canon] at hw
    · simp [h4, h5, canon] at hw
      rw [hw.1] at ht
      simp [directAck] at ht
    · have hmsg : msg = handshakeMsg inp v := by
        simp [h4, h5, canon] at hw
        exact hw.1
      subst hmsg
      refine ⟨v.port, v.ip, v.m1, v.conn, hS.2.2.2, hS.1.1.1, rfl, ?_, ?_, ?_, hS.2.1, hS.2.2.1⟩ <;>
        simp [h4, h5, canon]
    · have hmsg : msg = handshakeMsg inp v := by
        simp [h4, h5, canon] at hw
        rcases hw with hw | hw
        · exact hw.1
        · rw [hw.1] at ht
          simp [directAck] at ht
      subst hmsg
      refine ⟨v.port, v.ip, v.m1, v.conn, hS.2.2.2, hS.1.1.1, rfl, ?_, ?_, ?_, hS.2.1, hS.2.2.1⟩ <;>
        simp [h4, h5, canon]
  · rcases sealedFrames_cases env 0 v.crypt (handshakeMsg inp v) w4 with
      h4 | ⟨j4, e4, -, -, h4⟩ <;>
    rcases sealedFrames_cases env n v.crypt relayAck w5 with
      h5 | ⟨j5, e5, -, -, h5⟩
    · simp [h4, h5, canon] at hw
    · simp [h4, h5, canon] at hw
      rw [hw.1] at ht
      simp [relayAck] at ht
    · have hmsg : msg = handshakeMsg inp v := by
        simp [h4, h5, canon] at hw
        exact hw.1
      subst hmsg
      refine ⟨v.port, v.ip, v.m1, v.conn, hS.2.2.2, hS.1.1.1, rfl, ?_, ?_, ?_, hS.2.1, hS.2.2.1⟩ <;>
        simp [h4, h5, canon]
    · have hmsg : msg = handshakeMsg inp v := by
        simp [h4, h5, canon] at hw
        rcases hw with hw | hw
        · exact hw.1
        · rw [hw.1] at ht
          simp [relayAck] at ht
      subst hmsg
      refine ⟨v.port, v.ip, v.m1, v.conn, hS.2.2.2, hS.1.1.1, rfl, ?_, ?_, ?_, hS.2.1, hS.2.2.1⟩ <;>
        simp [h4, h5, canon]
  · rcases sealedFrames_cases env 0 v.crypt (handshakeMsg inp v) w4 with
      h4 | ⟨j4, e4, -, -, h4⟩
    · simp [h4, canon] at hw
    · have hmsg : msg = handshakeMsg inp v := by
        simp [h4, canon] at hw
        exact hw.1
      subst hmsg
      refine ⟨v.port, v.ip, v.m1, v.conn, hS.2.2.2, hS.1.1.1, rfl, ?_, ?_, ?_, hS.2.1, hS.2.2.1⟩ <;>
        simp [h4, canon]

theorem handshake_matches_server_options_witness :
    Event.writeMessage
        { type := TransferMessageType.SenderHandshake,
          Payload := Payload.SenderHandshakePayload [10, 0, 0, 1] 4242 1000 } [0, 1] none ∈
      events sampleEnv (sampleInputs [[0], [2]] []) ∧
    ∃ port ip m1 conn,
      sampleEnv.GetOpenPort = Except.ok port ∧
      sampleEnv.Dial = Except.ok conn ∧
      Payload.SenderHandshakePayload [10, 0, 0, 1] 4242 1000 =
        Payload.SenderHandshakePayload conn.localIP port
          (sampleInputs [[0], [2]] []).sender.payloadSize ∧
      Event.startServer { port := port, receiverIP := ip } ∈
        events sampleEnv (sampleInputs [[0], [2]] []) ∧
      (∀ opts, Event.startServer opts ∈ events sampleEnv (sampleInputs [[0], [2]] []) →
        opts = { port := port, receiverIP := ip }) ∧
      Event.readEncrypted (some m1) none ∈ events sampleEnv (sampleInputs [[0], [2]] []) ∧
      m1.type = TransferMessageType.ReceiverHandshake ∧
      sampleEnv.DecodeHandshakePayload m1.Payload = Except.ok ip :=
  have hmem : Event.writeMessage
        { type := TransferMessageType.SenderHandshake,
          Payload := Payload.SenderHandshakePayload [10, 0, 0, 1] 4242 1000 } [0, 1] none ∈
      events sampleEnv (sampleInputs [[0], [2]] []) := by
    have h : events sampleEnv (sampleInputs [[0], [2]] []) =
        sampleSignaling ++ sampleHandshake ++ sampleDirect := by rfl
    rw [h]
    simp [sampleHandshake]
  ⟨hmem, handshake_matches_server_options sampleEnv (sampleInputs [[0], [2]] []) _ _ _ hmem rfl⟩

/-- C7, the code at a failing input: every write on the signaling transport
fails (the three `WriteJSON` and the two `WriteMessage` each return an error),
yet `ConnectToRendezvous` goes through all its steps, closes the relay channel
and returns `nil`. -/
theorem write_failures_are_not_fatal :
    (events sampleEnv
        (sampleInputs [[0], [2]] (List.replicate 5 (some (Error.external 5))))).filterMap
        Event.writeError =
      List.replicate 5 (Error.external 5) ∧
    Event.closeRelay ∈
      events sampleEnv (sampleInputs [[0], [2]] (List.replicate 5 (some (Error.external 5)))) ∧
    returned sampleEnv (sampleInputs [[0], [2]] (List.replicate 5 (some (Error.external 5)))) =
      none := by
  refine ⟨by rfl, ?_, by rfl⟩
  decide

set_option maxHeartbeats 3200000 in
/-- C8: in every run the password is sent on the password channel at most once;
when Bind was read and its payload decoded it is sent exactly once and is
`GeneratePassword` of the session id decoded from the Bind payload; and at every
call of `pake.InitCurve` the password has already been sent. -/
theorem password_sent_once_before_pake (env : Env) (inp : Inputs) (pre post : List Event)
    (x : Event) (hcut : events env inp = pre ++ x :: post) :
    ((events env inp).filter Event.isSendPassword).length ≤ 1 ∧
    (Event.readRendezvous RendezvousMessageType.RendezvousToSenderBind none ∈ events env inp →
      Event.decodePayload none ∈ events env inp →
      ∃ bindMsg id,
        expectMessage RendezvousMessageType.RendezvousToSenderBind inp.rendezvousIn =
          Except.ok bindMsg ∧
        env.DecodeBindPayload bindMsg.Payload = Except.ok id ∧
        (events env inp).filter Event.isSendPassword =
          [Event.sendPassword (env.GeneratePassword id)]) ∧
    (x.isPakeInitCurve = true → pre.any Event.isSendPassword = true) := by
  have hs := run_shape env inp
  suffices h : ((events env inp).filter Event.isSendPassword).length ≤ 1 ∧
    (Event.readRendezvous RendezvousMessageType.RendezvousToSenderBind none ∈ events env inp →
      Event.decodePayload none ∈ events env inp →
      ∃ bindMsg id,
        expectMessage RendezvousMessageType.RendezvousToSenderBind inp.rendezvousIn =
          Except.ok bindMsg ∧
        env.DecodeBindPayload bindMsg.Payload = Except.ok id ∧
        (events env inp).filter Event.isSendPassword =
          [Event.sendPassword (env.GeneratePassword id)]) ∧
    AllCuts (fun pre x _ =>
      match x with
      | Event.pakeInitCurve _ => pre.any Event.isSendPassword = true
      | _ => True) (events env inp) by
    have key := (allCuts_iff _ _).1 h.2.2 pre x post hcut
    refine ⟨h.1, h.2.1, fun hx => ?_⟩
    cases x <;> simp [Event.isPakeInitCurve] at hx <;> exact key
  generalize returned env inp = r at hs
  generalize events env inp = t at hs ⊢
  rcases hs with ⟨v, k, e, hk, hB, -, hT⟩ | ⟨v, hK, hm⟩ | ⟨v, w4, e, hS⟩ |
    ⟨v, w4, w5, n, m2, hS, hm⟩ | ⟨v, w4, w5, n, m2, hS, hm⟩ | ⟨v, w4, m2, hS, hd, hr⟩
  · simp only [checkedSteps, List.mem_cons, List.mem_singleton, List.not_mem_nil, or_false] at hk
    rcases hk with rfl | rfl | rfl | rfl | rfl | rfl | rfl | rfl | rfl | rfl | rfl | rfl | rfl
    all_goals
      refine ⟨?_, ?_, ?_⟩
    all_goals first
      | (simp [failAt, canon, withErr, AllCuts, Event.isSendPassword]
         done)
      | (intro h1 h2
         simp [failAt, canon, withErr] at h1 h2
         done)
      | (intro _ _
         refine ⟨v.bindMsg, v.id, (hB (by decide)).2.1, (hB (by decide)).2.2, ?_⟩
         simp [failAt, canon, withErr, Event.isSendPassword])
  · refine ⟨?_, fun _ _ => ⟨v.bindMsg, v.id, hK.1.2.1, hK.1.2.2, ?_⟩, ?_⟩ <;>
        simp [canon, AllCuts, Event.isSendPassword]
  · rcases sealedFrames_cases env 0 v.crypt (handshakeMsg inp v) w4 with
      h4 | ⟨j4, e4, -, -, h4⟩
    all_goals
      refine ⟨?_, fun _ _ => ⟨v.bindMsg, v.id, hS.1.1.2.1, hS.1.1.2.2, ?_⟩, ?_⟩ <;>
        simp [h4, canon, AllCuts, Event.isSendPassword]
  · rcases sealedFrames_cases env 0 v.crypt (handshakeMsg inp v) w4 with
      h4 | ⟨j4, e4, -, -, h4⟩ <;>
    rcases sealedFrames_cases env n v.crypt directAck w5 with
      h5 | ⟨j5, e5, -, -, h5⟩
    all_goals
      refine ⟨?_, fun _ _ => ⟨v.bindMsg, v.id, hS.1.1.2.1, hS.1.1.2.2, ?_⟩, ?_⟩ <;>
        simp [h4, h5, canon, AllCuts, Event.isSendPassword]
  · rcases sealedFrames_cases env 0 v.crypt (handshakeMsg inp v) w4 with
      h4 | ⟨j4, e4, -, -, h4⟩ <;>
    rcases sealedFrames_cases env n v.crypt relayAck w5 with
      h5 | ⟨j5, e5, -, -, h5⟩
    all_goals
      refine ⟨?_, fun _ _ => ⟨v.bindMsg, v.id, hS.1.1.2.1, hS.1.1.2.2, ?_⟩, ?_⟩ <;>
        simp [h4, h5, canon, AllCuts, Event.isSendPassword]
  · rcases sealedFrames_cases env 0 v.crypt (handshakeMsg inp v) w4 with
      h4 | ⟨j4, e4, -, -, h4⟩
    all_goals
      refine ⟨?_, fun _ _ => ⟨v.bindMsg, v.id, hS.1.1.2.1, hS.1.1.2.2, ?_⟩, ?_⟩ <;>
        simp [h4, canon, AllCuts, Event.isSendPassword]

theorem password_sent_once_before_pake_witness :
    events sampleEnv (sampleInputs [[0], [2]] []) =
        sampleSignaling.take 5 ++ Event.pakeInitCurve none ::
          (sampleSignaling.drop 6 ++ sampleHandshake ++ sampleDirect) ∧
      (sampleSignaling.take 5).any Event.isSendPassword = true :=
  ⟨by rfl,
    (password_sent_once_before_pake sampleEnv (sampleInputs [[0], [2]] [])
      (sampleSignaling.take 5) (sampleSignaling.drop 6 ++ sampleHandshake ++ sampleDirect)
      (Event.pakeInitCurve none) (by rfl)).2.2 rfl⟩

/-- C9, the code at a failing input: a model in state `showFinished` that
receives a `ProgressMsg` is put back in `showReceivingProgress`, a state earlier
in the declared order. -/
theorem update_can_move_state_back :
    ({ sampleReceiving with state := uiState.showFinished } : receiverUIModel).state.toNat = 2 ∧
    ((receiverUIModel.Update sampleUI { sampleReceiving with state := uiState.showFinished }
        (Msg.ProgressMsg 1)).1.state = uiState.showReceivingProgress) ∧
    (receiverUIModel.Update sampleUI { sampleReceiving with state := uiState.showFinished }
        (Msg.ProgressMsg 1)).1.state.toNat <
      ({ sampleReceiving with state := uiState.showFinished } : receiverUIModel).state.toNat := by
  refine ⟨by rfl, by rfl, ?_⟩
  decide

/-- C10, the code at a failing input: after a `FinishedMsg` with two files and a
decompressed size of 500 bytes, on a model whose `payloadSize` is 100, the
finished view shows the file count 2 but puts the formatting of 100, the
model's `payloadSize`, in the "decompressed" slot; the 500 is stored in
`decompressedPayloadSize` and not shown. -/
theorem finished_view_shows_payload_size :
    (receiverUIModel.Update sampleUI sampleReceiving
        (Msg.FinishedMsg ["a.txt", "b.txt"] 500)).1.decompressedPayloadSize = 500 ∧
    (receiverUIModel.Update sampleUI sampleReceiving
        (Msg.FinishedMsg ["a.txt", "b.txt"] 500)).1.finishedSize sampleUI = "100 B" ∧
    receiverUIModel.View sampleUI
        (receiverUIModel.Update sampleUI sampleReceiving
          (Msg.FinishedMsg ["a.txt", "b.txt"] 500)).1 =
      "\n  File transfer completed! Received 2 files (100 B decompressed)\n\n" ++
        "Received: a.txt, b.txt\n\n  [bar]\n\n  (any of [q, esc, ctrl+c] to abort)\n\n" := by
  refine ⟨by rfl, by decide, by decide⟩

end Portal
